import Mathlib

/-!
# dbeast-monitor: Logstash configuration bundle generation

A shallow embedding of `pkg/plugin/logstash_config_files_controller.go`.

* Go strings are modelled as lists of characters (`GoString`): the texts are
  taken to be valid UTF-8, on which matching a substring by bytes and by
  characters agree.
* The archive behind `*zip.Writer` is modelled as the sequence of its entries,
  `(name, content)` pairs in the order of their creation; a function that can
  panic returns an `Option`, with `none` for the panic.
* `filepath.Join` is modelled with `/` as the path separator.
* The logger arguments have no effect on the archive and are left out.
* The loops over slices are left folds over lists, with the variables a loop
  updates as the state of the fold.
-/

namespace DBeast

/-- Go `string`, as a list of characters. -/
abbrev GoString := List Char

/-! ## Standard-library functions used by the controller -/

/-- The scanning loop of `strings.ReplaceAll` for a non-empty `old`: the first
argument counts the characters of the current match that are still to be
skipped.  At skip count `0` the text is matched against `old` at the current
position; a match emits `new` and skips `old`, a mismatch copies one
character. -/
def replaceAux (old new : GoString) : Nat → GoString → GoString
  | _, [] => []
  | skip + 1, _ :: cs => replaceAux old new skip cs
  | 0, c :: cs =>
    if old.isPrefixOf (c :: cs) then new ++ replaceAux old new (old.length - 1) cs
    else c :: replaceAux old new 0 cs

/-- Go `strings.ReplaceAll(s, old, new)`: every non-overlapping instance of
`old`, found left to right, is replaced by `new`.  With an empty `old` the
replacement is inserted before every character and at the end. -/
def ReplaceAll (s old new : GoString) : GoString :=
  if old = [] then new ++ s.flatMap (fun c => c :: new)
  else replaceAux old new 0 s

/-- Go `strings.Contains(s, substr)`. -/
def Contains : GoString → GoString → Bool
  | [], substr => substr.isEmpty
  | c :: cs, substr => substr.isPrefixOf (c :: cs) || Contains cs substr

/-- Go `fmt.Sprintf("%t", b)`. -/
def formatBool (b : Bool) : GoString :=
  if b then "true".toList else "false".toList

/-- Go `strings.Join(elems, sep)`. -/
def stringsJoin : List GoString → GoString → GoString
  | [], _ => []
  | [e], _ => e
  | e :: es, sep => e ++ sep ++ stringsJoin es sep

/-- The path elements of a slash-separated path: the maximal runs of
characters other than `/` (empty runs included). -/
def splitSlash : GoString → List GoString
  | [] => [[]]
  | c :: cs =>
    if c = '/' then [] :: splitSlash cs
    else
      match splitSlash cs with
      | [] => [[c]]
      | x :: xs => (c :: x) :: xs

/-- One step of `filepath.Clean` over the path elements: `stack` holds the
elements kept so far, last one first.  Empty elements and `.` are dropped; `..`
removes the preceding element when that is not itself `..`, is dropped at the
root of a rooted path, and is kept otherwise. -/
def cleanStep (rooted : Bool) (stack : List GoString) (e : GoString) : List GoString :=
  if e = [] ∨ e = ['.'] then stack
  else if e = ['.', '.'] then
    match stack with
    | [] => if rooted then [] else [e]
    | top :: rest => if top = ['.', '.'] then e :: stack else rest
  else e :: stack

/-- Go `filepath.Clean` with `/` as the separator: the shortest path
name equivalent to `path` by purely lexical processing. -/
def Clean (path : GoString) : GoString :=
  if path = [] then ['.']
  else
    let rooted : Bool := path.head? == some '/'
    let kept := ((splitSlash path).foldl (cleanStep rooted) []).reverse
    let out := (if rooted then ['/'] else []) ++ stringsJoin kept ['/']
    if out = [] then ['.'] else out

/-- Go `filepath.Join` with `/` as the separator: the elements from the first
non-empty one on are joined with `/` and the result is cleaned; when every
element is empty the result is the empty string. -/
def filepathJoin : List GoString → GoString
  | [] => []
  | e :: es => if e = [] then filepathJoin es else Clean (stringsJoin (e :: es) ['/'])

/-! ## Data model -/

/-- Connection endpoint of one service (`elasticsearch_dao.go`). -/
structure Credentials where
  Host : GoString
  AuthenticationEnabled : Bool
  Username : GoString
  Password : GoString
  Status : GoString
deriving DecidableEq, Inhabited

/-- The `Prod` slot of `EnvironmentConfig`. -/
structure ProdEnvironment where
  Elasticsearch : Credentials
  Kibana : Credentials
deriving DecidableEq, Inhabited

/-- The `Mon` slot of `EnvironmentConfig`. -/
structure MonEnvironment where
  Elasticsearch : Credentials
deriving DecidableEq, Inhabited

/-- The two environments a bundle refers to. -/
structure EnvironmentConfig where
  Prod : ProdEnvironment
  Mon : MonEnvironment
deriving DecidableEq, Inhabited

/-- One selectable template. -/
structure ConfigurationCheckbox where
  Label : GoString
  Id : GoString
  IsChecked : Bool
deriving DecidableEq, Inhabited

/-- One deployment target of the per-host bundle. -/
structure LogstashHost where
  ServerAddress : GoString
  LogstashApiHost : GoString
  LogstashLogsFolder : GoString
deriving DecidableEq, Inhabited

/-- The per-host block of the request: templates and hosts. -/
structure LogstashMonitoringConfigurationFiles where
  Configurations : List ConfigurationCheckbox
  Hosts : List LogstashHost
deriving DecidableEq, Inhabited

/-- The configuration block of the request. -/
structure LogstashConfigurations where
  EsMonitoringConfigurationFiles : List ConfigurationCheckbox
  LogstashMonitoringConfigurationFiles : LogstashMonitoringConfigurationFiles
deriving DecidableEq, Inhabited

/-- Modelled from the spec: the declaration of the request type `Cluster` is
not among the sources; it carries the two fields the generators read,
`ClusterConnectionSettings` and `LogstashConfigurations`. -/
structure Cluster where
  ClusterConnectionSettings : EnvironmentConfig
  LogstashConfigurations : LogstashConfigurations
deriving DecidableEq, Inhabited

/-- The template registry `LSConfigs`, a Go `map[string]string`. -/
abbrev TemplateRegistry := GoString → Option GoString

/-- Go map indexing `LSConfigs[id]`: the zero value `""` for a missing key. -/
def TemplateRegistry.get (LSConfigs : TemplateRegistry) (id : GoString) : GoString :=
  (LSConfigs id).getD []

/-- The archive under construction: the entries created so far, in order. -/
abbrev ZipWriter := List (GoString × GoString)

/-! ## The controller -/

/-- `UpdateConnectionSettings`: the four environment placeholders, replaced in
the order HOST, USER, PASSWORD, SSL_ENABLED. -/
def UpdateConnectionSettings (configFileContent : GoString) (credentials : Credentials)
    (env : GoString) : GoString :=
  let configFileContent :=
    ReplaceAll configFileContent ("<".toList ++ env ++ "_HOST>".toList) credentials.Host
  let configFileContent :=
    ReplaceAll configFileContent ("<".toList ++ env ++ "_USER>".toList) credentials.Username
  let configFileContent :=
    ReplaceAll configFileContent ("<".toList ++ env ++ "_PASSWORD>".toList) credentials.Password
  let configFileContent :=
    ReplaceAll configFileContent ("<".toList ++ env ++ "_SSL_ENABLED>".toList)
      (formatBool (Contains credentials.Host "https".toList))
  configFileContent

/-- `UpdateProdConnectionSettings`. -/
def UpdateProdConnectionSettings (configFileContent : GoString)
    (environmentConfig : EnvironmentConfig) : GoString :=
  UpdateConnectionSettings configFileContent environmentConfig.Prod.Elasticsearch "PROD".toList

/-- `UpdateMonConnectionSettings`. -/
def UpdateMonConnectionSettings (configFileContent : GoString)
    (environmentConfig : EnvironmentConfig) : GoString :=
  UpdateConnectionSettings configFileContent environmentConfig.Mon.Elasticsearch "MON".toList

/-- `UpdateLogstashConnectionSettings`: the two host placeholders. -/
def UpdateLogstashConnectionSettings (configFileContent : GoString)
    (logstashHost : LogstashHost) : GoString :=
  let configFileContent :=
    ReplaceAll configFileContent "<PATH_TO_LOGS>".toList logstashHost.LogstashLogsFolder
  let configFileContent :=
    ReplaceAll configFileContent "<LOGSTASH-API>".toList logstashHost.LogstashApiHost
  configFileContent

/-- The length of a Go string in bytes: the sum of the UTF-8 sizes of its
characters. -/
def byteLen : GoString → Nat
  | [] => 0
  | c :: cs => c.utf8Size + byteLen cs

/-- `WriteFileToZip`; `none` stands for a panic.  `zipWriter.Create` fails for a
name of more than 65535 bytes; the function logs the error and goes on to call
`Write` on the nil writer it got, which panics.  For a name that ends in `/`
`Create` makes a directory entry, on which `Write` fails for every non-empty
content; the function logs the error and the entry stays without content.  For
every other name the entry is created and the content written. -/
def WriteFileToZip (zipWriter : ZipWriter) (fileInternalPath configFile : GoString) :
    Option ZipWriter :=
  if 65535 < byteLen fileInternalPath then none
  else if fileInternalPath.getLast? = some '/' then some (zipWriter ++ [(fileInternalPath, [])])
  else some (zipWriter ++ [(fileInternalPath, configFile)])

/-- Body of the loop of `GenerateESLogstashConfigurationFiles`; the state is the
archive and the manifest text accumulated in `pipelineFile`; `none` stands for a
panic, which ends the loop. -/
def esLoopBody (LSConfigs : TemplateRegistry) (project : Cluster) (clusterId clusterName : GoString)
    (st : ZipWriter × GoString) (configFile : ConfigurationCheckbox) :
    Option (ZipWriter × GoString) :=
  if configFile.IsChecked then
    let configFileClone := LSConfigs.get configFile.Id
    let configFileClone := ReplaceAll configFileClone "<CLUSTER_ID>".toList clusterId
    let configFileClone := UpdateMonConnectionSettings configFileClone project.ClusterConnectionSettings
    let configFileClone := UpdateProdConnectionSettings configFileClone project.ClusterConnectionSettings
    let fileInternalPath := clusterName ++ "-".toList ++ clusterId ++ "/".toList ++ configFile.Id
    match WriteFileToZip st.1 fileInternalPath configFileClone with
    | none => none
    | some zipWriter =>
      let pipelineId :=
        ReplaceAll configFile.Id ".conf".toList [] ++ "-".toList ++ clusterName ++ "-".toList ++
          clusterId
      let pipelineFile := st.2 ++ ("- pipeline.id: ".toList ++ pipelineId ++ "\n".toList)
      let pipelineFile := pipelineFile ++
        ("  path.config: \"/etc/logstash/conf.d/".toList ++ fileInternalPath ++ "\"\n\n".toList)
      some (zipWriter, pipelineFile)
  else some st

/-- `GenerateESLogstashConfigurationFiles`: the single-cluster bundle; `none`
stands for a panic. -/
def GenerateESLogstashConfigurationFiles (LSConfigs : TemplateRegistry) (project : Cluster)
    (clusterId clusterName : GoString) (zipWriter : ZipWriter) : Option ZipWriter :=
  let pipelineFile := "### Configuration files for the cluster: ".toList ++ clusterName ++
    ", clusterId: ".toList ++ clusterId ++ "\n".toList
  match project.LogstashConfigurations.EsMonitoringConfigurationFiles.foldlM
      (esLoopBody LSConfigs project clusterId clusterName) (zipWriter, pipelineFile) with
  | none => none
  | some st => WriteFileToZip st.1 "pipelines.yml".toList st.2

/-- Body of the inner loop of `GenerateLSLogstashConfigurationFiles`, for one
host; `none` stands for a panic, which ends the loop. -/
def lsLoopBody (LSConfigs : TemplateRegistry) (project : Cluster) (clusterId : GoString)
    (logstashHost : LogstashHost) (st : ZipWriter × GoString)
    (configFile : ConfigurationCheckbox) : Option (ZipWriter × GoString) :=
  if configFile.IsChecked then
    let configFileClone := LSConfigs.get configFile.Id
    let configFileClone := ReplaceAll configFileClone "<CLUSTER_ID>".toList clusterId
    let configFileClone := UpdateMonConnectionSettings configFileClone project.ClusterConnectionSettings
    let configFileClone := UpdateLogstashConnectionSettings configFileClone logstashHost
    let folderPath := filepathJoin [logstashHost.ServerAddress, "dbeast-mon".toList, configFile.Id]
    match WriteFileToZip st.1 folderPath configFileClone with
    | none => none
    | some zipWriter =>
      let pipelineId := ReplaceAll configFile.Id ".conf".toList []
      let pipelineFile := st.2 ++ ("- pipeline.id: ".toList ++ pipelineId ++ "\n".toList)
      let pipelineFile := pipelineFile ++
        ("  path.config: \"/etc/logstash/conf.d/dbeast-mon/".toList ++ configFile.Id ++
          "\"\n\n".toList)
      some (zipWriter, pipelineFile)
  else some st

/-- Body of the outer loop of `GenerateLSLogstashConfigurationFiles`: the files
of one host, then that host's manifest; `none` stands for a panic. -/
def lsHostBody (LSConfigs : TemplateRegistry) (project : Cluster) (clusterId : GoString)
    (zipWriter : ZipWriter) (logstashHost : LogstashHost) : Option ZipWriter :=
  let pipelineFile := "### Configuration files for the Logstash monitoring\n".toList
  match project.LogstashConfigurations.LogstashMonitoringConfigurationFiles.Configurations.foldlM
      (lsLoopBody LSConfigs project clusterId logstashHost) (zipWriter, pipelineFile) with
  | none => none
  | some st =>
    WriteFileToZip st.1 (filepathJoin [logstashHost.ServerAddress, "pipelines.yml".toList]) st.2

/-- `GenerateLSLogstashConfigurationFiles`: the per-host bundle; `none` stands
for a panic. -/
def GenerateLSLogstashConfigurationFiles (LSConfigs : TemplateRegistry) (project : Cluster)
    (clusterId : GoString) (zipWriter : ZipWriter) : Option ZipWriter :=
  project.LogstashConfigurations.LogstashMonitoringConfigurationFiles.Hosts.foldlM
    (lsHostBody LSConfigs project clusterId) zipWriter

/-! ## Entries and manifest blocks, as the loop bodies build them -/

/-- The name and the content `esLoopBody` hands to `WriteFileToZip` for a checked
checkbox. -/
def esEntry (LSConfigs : TemplateRegistry) (project : Cluster) (clusterId clusterName : GoString)
    (configFile : ConfigurationCheckbox) : GoString × GoString :=
  (clusterName ++ "-".toList ++ clusterId ++ "/".toList ++ configFile.Id,
   UpdateProdConnectionSettings
     (UpdateMonConnectionSettings
       (ReplaceAll (LSConfigs.get configFile.Id) "<CLUSTER_ID>".toList clusterId)
       project.ClusterConnectionSettings)
     project.ClusterConnectionSettings)

/-- The two manifest lines and the blank line `esLoopBody` appends for a checked
checkbox. -/
def esBlock (clusterId clusterName : GoString) (configFile : ConfigurationCheckbox) : GoString :=
  "- pipeline.id: ".toList ++
    (ReplaceAll configFile.Id ".conf".toList [] ++ "-".toList ++ clusterName ++ "-".toList ++
      clusterId) ++ "\n".toList ++
  ("  path.config: \"/etc/logstash/conf.d/".toList ++
    (clusterName ++ "-".toList ++ clusterId ++ "/".toList ++ configFile.Id) ++ "\"\n\n".toList)

/-- The name and the content `lsLoopBody` hands to `WriteFileToZip` for a host
and a checked checkbox. -/
def lsEntry (LSConfigs : TemplateRegistry) (project : Cluster) (clusterId : GoString)
    (logstashHost : LogstashHost) (configFile : ConfigurationCheckbox) : GoString × GoString :=
  (filepathJoin [logstashHost.ServerAddress, "dbeast-mon".toList, configFile.Id],
   UpdateLogstashConnectionSettings
     (UpdateMonConnectionSettings
       (ReplaceAll (LSConfigs.get configFile.Id) "<CLUSTER_ID>".toList clusterId)
       project.ClusterConnectionSettings)
     logstashHost)

/-- The two manifest lines and the blank line `lsLoopBody` appends for a checked
checkbox. -/
def lsBlock (configFile : ConfigurationCheckbox) : GoString :=
  "- pipeline.id: ".toList ++ ReplaceAll configFile.Id ".conf".toList [] ++ "\n".toList ++
  ("  path.config: \"/etc/logstash/conf.d/dbeast-mon/".toList ++ configFile.Id ++
    "\"\n\n".toList)

/-- The entry the archive gets for a name and a content: under a name that
ends in `/` the content is left out. -/
def storedEntry (entry : GoString × GoString) : GoString × GoString :=
  (entry.1, if entry.1.getLast? = some '/' then [] else entry.2)

/-- Whether an entry of this name can be created: at most 65535 bytes. -/
def fitsZip (name : GoString) : Bool :=
  decide (byteLen name ≤ 65535)

/-- The checked checkboxes of a list, in list order. -/
def checked (configFiles : List ConfigurationCheckbox) : List ConfigurationCheckbox :=
  configFiles.filter (fun configFile => configFile.IsChecked)

/-- Whether every entry the per-host generator hands to `WriteFileToZip` for a
host can be created: the rendered files of the checked checkboxes and the
manifest. -/
def hostFits (LSConfigs : TemplateRegistry) (project : Cluster) (clusterId : GoString)
    (logstashHost : LogstashHost) : Bool :=
  (checked project.LogstashConfigurations.LogstashMonitoringConfigurationFiles.Configurations).all
      (fun configFile =>
        fitsZip (lsEntry LSConfigs project clusterId logstashHost configFile).1) &&
    fitsZip (filepathJoin [logstashHost.ServerAddress, "pipelines.yml".toList])

/-- The entries of one host in the per-host bundle: the stored rendered files of
the checked checkboxes, then the stored manifest. -/
def hostEntries (LSConfigs : TemplateRegistry) (project : Cluster) (clusterId : GoString)
    (logstashHost : LogstashHost) : List (GoString × GoString) :=
  (checked project.LogstashConfigurations.LogstashMonitoringConfigurationFiles.Configurations).map
      (fun configFile =>
        storedEntry (lsEntry LSConfigs project clusterId logstashHost configFile)) ++
    [storedEntry (filepathJoin [logstashHost.ServerAddress, "pipelines.yml".toList],
      "### Configuration files for the Logstash monitoring\n".toList ++
        ((checked
          project.LogstashConfigurations.LogstashMonitoringConfigurationFiles.Configurations).map
          lsBlock).flatten)]

/-- The four tokens of the `PROD` environment. -/
def prodTokens : List GoString :=
  ["<PROD_HOST>".toList, "<PROD_USER>".toList, "<PROD_PASSWORD>".toList,
   "<PROD_SSL_ENABLED>".toList]

/-- A plain path element: not empty, without a slash, and neither `.` nor
`..`. -/
def plainElement (e : GoString) : Prop :=
  e ≠ [] ∧ '/' ∉ e ∧ e ≠ ['.'] ∧ e ≠ ['.', '.']

/-! ## The end-to-end scenario -/

/-- Registry with the single template `health.conf`. -/
def scenarioRegistry : TemplateRegistry := fun id =>
  if id = "health.conf".toList then some "<CLUSTER_ID> <PROD_HOST> <PROD_SSL_ENABLED>".toList
  else none

/-- Credentials with the given host and every other field empty. -/
def hostOnly (host : GoString) : Credentials := ⟨host, false, [], [], []⟩

/-- Request of the scenario: the production host and one checked checkbox. -/
def scenarioProject : Cluster :=
  ⟨⟨⟨hostOnly "https://es.acme.com".toList, hostOnly []⟩, ⟨hostOnly []⟩⟩,
   ⟨[⟨"health".toList, "health.conf".toList, true⟩], ⟨[], []⟩⟩⟩

/-- Request with one host at the given server address and one checked
checkbox with the given identifier in the per-host list. -/
def oneHostProject (serverAddress id : GoString) : Cluster :=
  ⟨scenarioProject.ClusterConnectionSettings,
   ⟨[], ⟨[⟨[], id, true⟩], [⟨serverAddress, [], []⟩]⟩⟩⟩

/-- Request with two hosts and a single, unchecked checkbox in the per-host
list. -/
def noneCheckedProject : Cluster :=
  ⟨scenarioProject.ClusterConnectionSettings,
   ⟨[], ⟨[⟨[], "x.conf".toList, false⟩],
     [⟨"10.0.0.5".toList, [], []⟩, ⟨"10.0.0.6".toList, [], []⟩]⟩⟩⟩

/-- The request with every unchecked checkbox removed from both checkbox
lists. -/
def uncheckedRemoved (project : Cluster) : Cluster :=
  ⟨project.ClusterConnectionSettings,
   ⟨checked project.LogstashConfigurations.EsMonitoringConfigurationFiles,
    ⟨checked project.LogstashConfigurations.LogstashMonitoringConfigurationFiles.Configurations,
     project.LogstashConfigurations.LogstashMonitoringConfigurationFiles.Hosts⟩⟩⟩

/-- The registry with the empty template registered under `id`. -/
def withEmptyTemplate (LSConfigs : TemplateRegistry) (id : GoString) : TemplateRegistry :=
  fun key => if key = id then some [] else LSConfigs key

/-- Request with one checked and one unchecked checkbox in each list, and one
host. -/
def mixedProject : Cluster :=
  ⟨scenarioProject.ClusterConnectionSettings,
   ⟨[⟨[], "health.conf".toList, true⟩, ⟨[], "nodes.conf".toList, false⟩],
    ⟨[⟨[], "logs.conf".toList, false⟩, ⟨[], "api.conf".toList, true⟩],
     [⟨"10.0.0.5".toList, "http://10.0.0.5:9600".toList, "/var/log/logstash".toList⟩]⟩⟩⟩

/-- A name of 65536 bytes. -/
def longName : GoString := List.replicate 65536 'a'

/-- Registry with the same template under every identifier. -/
def constRegistry (template : GoString) : TemplateRegistry := fun _ => some template

/-- Request with one checked checkbox with the given identifier in the
single-cluster list. -/
def oneEsProject (id : GoString) : Cluster :=
  ⟨scenarioProject.ClusterConnectionSettings, ⟨[⟨[], id, true⟩], ⟨[], []⟩⟩⟩

/-- Request with two checked checkboxes and an unchecked one between them in the
single-cluster list. -/
def twoCheckedProject : Cluster :=
  ⟨scenarioProject.ClusterConnectionSettings,
   ⟨[⟨[], "health.conf".toList, true⟩, ⟨[], "skipped.conf".toList, false⟩,
     ⟨[], "nodes.conf".toList, true⟩], ⟨[], []⟩⟩⟩

/-! ## The four environment placeholders, one at a time -/

/-- The four placeholders of `UpdateConnectionSettings`. -/
inductive Placeholder
  | HOST
  | USER
  | PASSWORD
  | SSL_ENABLED
deriving DecidableEq, Inhabited

/-- The part of a token after the environment tag. -/
def Placeholder.ending : Placeholder → GoString
  | .HOST => "_HOST>".toList
  | .USER => "_USER>".toList
  | .PASSWORD => "_PASSWORD>".toList
  | .SSL_ENABLED => "_SSL_ENABLED>".toList

/-- The token of a placeholder for an environment tag, as
`UpdateConnectionSettings` builds it. -/
def Placeholder.token (env : GoString) (p : Placeholder) : GoString :=
  "<".toList ++ env ++ p.ending

/-- The text `UpdateConnectionSettings` puts in the place of a placeholder. -/
def Placeholder.value (credentials : Credentials) : Placeholder → GoString
  | .HOST => credentials.Host
  | .USER => credentials.Username
  | .PASSWORD => credentials.Password
  | .SSL_ENABLED => formatBool (Contains credentials.Host "https".toList)

/-- One of the four replacements of `UpdateConnectionSettings`. -/
def replaceOne (credentials : Credentials) (env : GoString) (configFileContent : GoString)
    (p : Placeholder) : GoString :=
  ReplaceAll configFileContent (p.token env) (p.value credentials)

/-- The replacements of the placeholders of `order`, applied one after the
other. -/
def replaceInOrder (credentials : Credentials) (env : GoString) (order : List Placeholder)
    (configFileContent : GoString) : GoString :=
  order.foldl (replaceOne credentials env) configFileContent

/-! ## The HTTP boundary -/

/-- One write to the body of a response: a JSON object written by
`json.NewEncoder(w).Encode`, or the bytes of the closed archive, kept as its
entries. -/
inductive BodyPart
  | json (fields : List (GoString × GoString))
  | archive (entries : ZipWriter)
deriving DecidableEq

/-- `http.ResponseWriter`: the header fields added, the status code once it is
written, and the writes to the body. -/
structure ResponseWriter where
  header : List (GoString × GoString)
  status : Option Nat
  body : List BodyPart
deriving DecidableEq

/-- `w.Header().Add(key, value)`. -/
def ResponseWriter.HeaderAdd (w : ResponseWriter) (key value : GoString) : ResponseWriter :=
  ⟨w.header ++ [(key, value)], w.status, w.body⟩

/-- `w.WriteHeader(statusCode)`: the first status code written stays. -/
def ResponseWriter.WriteHeader (w : ResponseWriter) (statusCode : Nat) : ResponseWriter :=
  match w.status with
  | some _ => w
  | none => ⟨w.header, some statusCode, w.body⟩

/-- `w.Write(data)`: writes status `200` first when no status is written yet. -/
def ResponseWriter.Write (w : ResponseWriter) (data : BodyPart) : ResponseWriter :=
  ⟨w.header, some (w.status.getD 200), w.body ++ [data]⟩

/-- The request, as far as the handler reads it: the outcome of decoding its
body into a `Cluster`, the value or the message of the decoder's error. -/
structure Request where
  Body : Except GoString Cluster

/-- The calls a handler makes that the claims speak of. -/
inductive Call
  | GetClusterInfo (credentials : Credentials)
  | GenerateLSLogstashConfigurationFiles (clusterId : GoString)
  | GenerateESLogstashConfigurationFiles (clusterId clusterName : GoString)
deriving DecidableEq

/-- `GenerateLogstashConfigurationFiles`: the response and the calls made, in
order.  `GetClusterInfo`, whose code is not among the sources, is a parameter:
it returns the cluster name and the cluster id, or the message of an error.
A panic of a generator ends the handler: it writes nothing more to the
response. -/
def GenerateLogstashConfigurationFiles
    (GetClusterInfo : Credentials → Except GoString (GoString × GoString))
    (LSConfigs : TemplateRegistry) (w : ResponseWriter) (req : Request) (isLogstash : Bool)
    (resultZipFileName : GoString) : ResponseWriter × List Call :=
  let w := w.HeaderAdd "Content-Disposition".toList
    ("attachment; filename=\"".toList ++ resultZipFileName ++ "\"".toList)
  let w := w.HeaderAdd "Content-Type".toList "application/zip".toList
  match req.Body with
  | .error _ =>
    let w := w.WriteHeader 400
    let w := w.Write (.json [("error".toList, "Invalid request payload".toList)])
    (w, [])
  | .ok project =>
    let zipWriter : ZipWriter := []
    let calls := [Call.GetClusterInfo project.ClusterConnectionSettings.Prod.Elasticsearch]
    match GetClusterInfo project.ClusterConnectionSettings.Prod.Elasticsearch with
    | .error err =>
      let w := w.WriteHeader 500
      let w := w.Write (.json [("error".toList, err)])
      (w, calls)
    | .ok (clusterName, clusterId) =>
      if isLogstash then
        let calls := calls ++ [Call.GenerateLSLogstashConfigurationFiles clusterId]
        match GenerateLSLogstashConfigurationFiles LSConfigs project clusterId zipWriter with
        | none => (w, calls)
        | some zipWriter =>
          let w := w.Write (.archive zipWriter)
          (w, calls)
      else
        let calls := calls ++ [Call.GenerateESLogstashConfigurationFiles clusterId clusterName]
        match GenerateESLogstashConfigurationFiles LSConfigs project clusterId clusterName
            zipWriter with
        | none => (w, calls)
        | some zipWriter =>
          let w := w.Write (.archive zipWriter)
          (w, calls)

/-- A handler: from the response writer and the request to the response and the
calls made. -/
abbrev HandlerFunc := ResponseWriter → Request → ResponseWriter × List Call

/-- `DownloadElasticsearchMonitoringConfigurationFilesHandler`. -/
def DownloadElasticsearchMonitoringConfigurationFilesHandler
    (GetClusterInfo : Credentials → Except GoString (GoString × GoString))
    (LSConfigs : TemplateRegistry) : HandlerFunc := fun w req =>
  GenerateLogstashConfigurationFiles GetClusterInfo LSConfigs w req false
    "ESConfigurationFiles.zip".toList

/-- `DownloadLogstashMonitoringConfigurationFilesHandler`. -/
def DownloadLogstashMonitoringConfigurationFilesHandler
    (GetClusterInfo : Credentials → Except GoString (GoString × GoString))
    (LSConfigs : TemplateRegistry) : HandlerFunc := fun w req =>
  GenerateLogstashConfigurationFiles GetClusterInfo LSConfigs w req true
    "LogstashConfigurationFiles.zip".toList

/-- The handler methods of `App` that `registerRoutes` names. -/
inductive Handler
  | TestClusterHandler
  | NewClusterHandler
  | DeleteClusterHandler
  | DownloadLogstashMonitoringConfigurationFilesHandler
  | DownloadElasticsearchMonitoringConfigurationFilesHandler
  | AddClusterHandler
  | SaveClusterHandler
deriving DecidableEq

/-- The function behind a handler method.  The two download handlers are those
of the controller; the code of the others is not among the sources and is
the parameter `absent`. -/
def Handler.func (GetClusterInfo : Credentials → Except GoString (GoString × GoString))
    (LSConfigs : TemplateRegistry) (absent : Handler → HandlerFunc) : Handler → HandlerFunc
  | .DownloadLogstashMonitoringConfigurationFilesHandler =>
    DBeast.DownloadLogstashMonitoringConfigurationFilesHandler GetClusterInfo LSConfigs
  | .DownloadElasticsearchMonitoringConfigurationFilesHandler =>
    DBeast.DownloadElasticsearchMonitoringConfigurationFilesHandler GetClusterInfo LSConfigs
  | h => absent h

/-- `http.ServeMux`, as the patterns registered with their handlers. -/
abbrev ServeMux := List (GoString × Handler)

/-- `mux.HandleFunc(pattern, handler)`. -/
def HandleFunc (mux : ServeMux) (pattern : GoString) (handler : Handler) : ServeMux :=
  mux ++ [(pattern, handler)]

/-- `registerRoutes`. -/
def registerRoutes (mux : ServeMux) : ServeMux :=
  let mux := HandleFunc mux "/test_cluster".toList .TestClusterHandler
  let mux := HandleFunc mux "/new_cluster".toList .NewClusterHandler
  let mux := HandleFunc mux "/delete_cluster".toList .DeleteClusterHandler
  let mux := HandleFunc mux "/download_logstash_monitoring_configuration_files".toList
    .DownloadLogstashMonitoringConfigurationFilesHandler
  let mux := HandleFunc mux "/download_es_monitoring_configuration_files".toList
    .AddClusterHandler
  let mux := HandleFunc mux "/save".toList .SaveClusterHandler
  mux

/-- The handler a mux serves a path with: the one registered under exactly that
path (none of the patterns of `registerRoutes` ends in a slash). -/
def routeHandler (mux : ServeMux) (path : GoString) : Option Handler :=
  (mux.find? (fun route => route.1 = path)).map Prod.snd

/-- An identity resolver that always fails. -/
def failingResolver : Credentials → Except GoString (GoString × GoString) :=
  fun _ => .error "connection refused".toList

/-- A response writer nothing is written to yet. -/
def freshWriter : ResponseWriter := ⟨[], none, []⟩

/-! ## Lemmas on the string functions -/

/-- Skipping `k` characters is dropping them. -/
theorem replaceAux_skip (old new : GoString) :
    ∀ (s : GoString) (k : Nat), replaceAux old new k s = replaceAux old new 0 (s.drop k)
  | [], k => by cases k <;> simp [replaceAux]
  | _ :: _, 0 => by simp
  | _ :: cs, k + 1 => by simp [replaceAux, replaceAux_skip old new cs k]

/-- A match at the current position emits `new` and resumes after `old`. -/
theorem replaceAux_match (old new rest : GoString) (hold : old ≠ []) :
    replaceAux old new 0 (old ++ rest) = new ++ replaceAux old new 0 rest := by
  cases old with
  | nil => exact absurd rfl hold
  | cons o os =>
    have hp : (o :: os).isPrefixOf (o :: (os ++ rest)) = true := by
      rw [List.isPrefixOf_iff_prefix]
      exact List.prefix_append (o :: os) rest
    simp only [List.cons_append, replaceAux, hp, if_true]
    rw [replaceAux_skip]
    simp

/-- A mismatch at the current position copies one character. -/
theorem replaceAux_mismatch (old new : GoString) (c : Char) (cs : GoString)
    (h : ¬ old <+: c :: cs) :
    replaceAux old new 0 (c :: cs) = c :: replaceAux old new 0 cs := by
  have hp : old.isPrefixOf (c :: cs) = false := by
    rw [← Bool.not_eq_true, List.isPrefixOf_iff_prefix]
    exact h
  simp [replaceAux, hp]

/-- A text without any instance of `old` is left as it is. -/
theorem replaceAux_of_absent (old new : GoString) :
    ∀ s : GoString, ¬ old <:+: s → replaceAux old new 0 s = s
  | [], _ => by simp [replaceAux]
  | c :: cs, h => by
    have h1 : ¬ old <+: c :: cs := fun hp => h hp.isInfix
    have h2 : ¬ old <:+: cs := fun hi => h (List.infix_cons hi)
    rw [replaceAux_mismatch old new c cs h1, replaceAux_of_absent old new cs h2]

/-- `ReplaceAll` leaves a text without any instance of `old` as it is. -/
theorem ReplaceAll_of_absent (s old new : GoString) (h : ¬ old <:+: s) :
    ReplaceAll s old new = s := by
  have hold : old ≠ [] := by
    rintro rfl
    exact h List.nil_infix
  simp [ReplaceAll, hold, replaceAux_of_absent old new s h]

/-- `ReplaceAll` on exactly `old` gives `new`. -/
theorem ReplaceAll_self (old new : GoString) (hold : old ≠ []) :
    ReplaceAll old old new = new := by
  have h := replaceAux_match old new [] hold
  simp only [List.append_nil] at h
  simp [ReplaceAll, hold, h, replaceAux]

/-- `Contains` decides the infix relation. -/
theorem Contains_iff_occurs (substr : GoString) :
    ∀ s : GoString, Contains s substr = true ↔ substr <:+: s
  | [] => by simp [Contains]
  | c :: cs => by
    simp [Contains, List.infix_cons_iff, Contains_iff_occurs substr cs]

/-- An instance of `w` in `a ++ b` lies in `b` when the first character of `w`
is not in `a`. -/
theorem infix_of_infix_append_head (w : GoString) :
    ∀ (a b : GoString), (∀ c ∈ a, w.head? ≠ some c) → w <:+: a ++ b → w <:+: b
  | [], _, _, h => by simpa using h
  | x :: a, b, hd, h => by
    have hd' : ∀ c ∈ a, w.head? ≠ some c := fun c hc => hd c (List.mem_cons_of_mem x hc)
    rw [List.cons_append, List.infix_cons_iff] at h
    rcases h with h | h
    · rcases List.prefix_cons_iff.1 h with rfl | ⟨t, rfl, _⟩
      · exact List.nil_infix
      · exact absurd rfl (hd x (List.mem_cons_self x a))
    · exact infix_of_infix_append_head w a b hd' h

/-- A prefix `v` of the output is a prefix of the input, when `new` is not
empty, does not have the last character of `v` and does not occur in `v`. -/
theorem prefix_of_prefix_replaceAux (old new : GoString) (hne : new ≠ []) :
    ∀ (s v : GoString), (∀ ch, v.getLast? = some ch → ch ∉ new) → ¬ new <:+: v →
      v <+: replaceAux old new 0 s → v <+: s
  | [], v, _, _, h => by simpa [replaceAux] using h
  | c :: cs, v, hlast, hsub, h => by
    by_cases hp : old <+: c :: cs
    · have hb : old.isPrefixOf (c :: cs) = true := List.isPrefixOf_iff_prefix.2 hp
      simp only [replaceAux, hb, if_true] at h
      rcases List.prefix_or_prefix_of_prefix h (List.prefix_append new _) with hv | hv
      · cases hl : v.getLast? with
        | none =>
          rw [List.getLast?_eq_none_iff] at hl
          rw [hl]
          exact List.nil_prefix
        | some ch =>
          exact absurd (hv.subset (List.mem_of_getLast?_eq_some hl)) (hlast ch hl)
      · exact absurd hv.isInfix hsub
    · rw [replaceAux_mismatch old new c cs hp] at h
      rcases List.prefix_cons_iff.1 h with rfl | ⟨t, rfl, ht⟩
      · exact List.nil_prefix
      · have hlast' : ∀ ch, t.getLast? = some ch → ch ∉ new := by
          intro ch hch
          apply hlast ch
          cases t with
          | nil => simp at hch
          | cons x xs => rw [List.getLast?_cons_cons]; exact hch
        have hsub' : ¬ new <:+: t := fun hi => hsub (List.infix_cons hi)
        exact List.cons_prefix_cons.2
          ⟨rfl, prefix_of_prefix_replaceAux old new hne cs t hlast' hsub' ht⟩

/-- An instance of `w` in the output starts at a position of the input where
`old` does not match, when `new` is not empty, has neither the first nor the
last character of `w`, and does not occur in `w`. -/
theorem infix_replaceAux_origin (old new w : GoString) (hold : old ≠ []) (hne : new ≠ [])
    (hhead : ∀ c ∈ new, w.head? ≠ some c) (hlast : ∀ ch, w.getLast? = some ch → ch ∉ new)
    (hsub : ¬ new <:+: w) :
    ∀ (n : Nat) (s : GoString), s.length ≤ n → w <:+: replaceAux old new 0 s →
      w = [] ∨ ∃ p t, s = p ++ t ∧ w <+: t ∧ ¬ old <+: t
  | _, [], _, h => by
    left
    simpa [replaceAux] using h
  | 0, _ :: _, hn, _ => by simp at hn
  | n + 1, c :: cs, hn, h => by
    by_cases hp : old <+: c :: cs
    · obtain ⟨rest, hrest⟩ := hp
      rw [← hrest, replaceAux_match old new rest hold] at h
      have h' := infix_of_infix_append_head w new _ hhead h
      have hlen : rest.length ≤ n := by
        have h1 : (old ++ rest).length = (c :: cs).length := by rw [hrest]
        have h2 : 0 < old.length := List.length_pos.2 hold
        simp only [List.length_append, List.length_cons] at h1 hn
        omega
      rcases infix_replaceAux_origin old new w hold hne hhead hlast hsub n rest hlen h' with
        h0 | ⟨p, t, hs, hw, ho⟩
      · exact Or.inl h0
      · refine Or.inr ⟨old ++ p, t, ?_, hw, ho⟩
        rw [← hrest, hs, List.append_assoc]
    · rw [replaceAux_mismatch old new c cs hp, List.infix_cons_iff] at h
      rcases h with h | h
      · rw [← replaceAux_mismatch old new c cs hp] at h
        exact Or.inr ⟨[], c :: cs, rfl,
          prefix_of_prefix_replaceAux old new hne _ w hlast hsub h, hp⟩
      · have hlen : cs.length ≤ n := by
          simp only [List.length_cons] at hn
          omega
        rcases infix_replaceAux_origin old new w hold hne hhead hlast hsub n cs hlen h with
          h0 | ⟨p, t, hs, hw, ho⟩
        · exact Or.inl h0
        · exact Or.inr ⟨c :: p, t, by rw [hs, List.cons_append], hw, ho⟩

/-- After `ReplaceAll` no instance of `old` is left, when `new` is not empty, has
neither the first nor the last character of `old`, and does not occur in
`old`. -/
theorem not_infix_ReplaceAll_self (s old new : GoString) (hold : old ≠ []) (hne : new ≠ [])
    (hhead : ∀ c ∈ new, old.head? ≠ some c) (hlast : ∀ ch, old.getLast? = some ch → ch ∉ new)
    (hsub : ¬ new <:+: old) : ¬ old <:+: ReplaceAll s old new := by
  intro h
  simp only [ReplaceAll, hold, if_false] at h
  rcases infix_replaceAux_origin old new old hold hne hhead hlast hsub s.length s le_rfl h with
    h0 | ⟨_, _, _, hw, ho⟩
  · exact hold h0
  · exact ho hw

/-- `ReplaceAll` brings in no instance of `w` when `new` is not empty, has neither
the first nor the last character of `w`, and does not occur in `w`. -/
theorem not_infix_ReplaceAll (s old new w : GoString) (hold : old ≠ []) (hw : w ≠ [])
    (hne : new ≠ []) (hhead : ∀ c ∈ new, w.head? ≠ some c)
    (hlast : ∀ ch, w.getLast? = some ch → ch ∉ new) (hsub : ¬ new <:+: w)
    (h : ¬ w <:+: s) : ¬ w <:+: ReplaceAll s old new := by
  intro hi
  simp only [ReplaceAll, hold, if_false] at hi
  rcases infix_replaceAux_origin old new w hold hne hhead hlast hsub s.length s le_rfl hi with
    h0 | ⟨p, t, hs, hp, _⟩
  · exact hw h0
  · apply h
    rw [hs]
    exact List.IsInfix.trans hp.isInfix (List.suffix_append p t).isInfix

/-! ## The loops, in closed form -/

/-- `WriteFileToZip` in terms of `fitsZip` and `storedEntry`. -/
theorem WriteFileToZip_eq (zipWriter : ZipWriter) (name content : GoString) :
    WriteFileToZip zipWriter name content =
      if fitsZip name = true then some (zipWriter ++ [storedEntry (name, content)]) else none := by
  unfold WriteFileToZip fitsZip storedEntry
  by_cases h : 65535 < byteLen name
  · have h' : ¬ byteLen name ≤ 65535 := by omega
    simp [h, h']
  · have h' : byteLen name ≤ 65535 := by omega
    by_cases hd : name.getLast? = some '/'
    · simp [h, h', hd]
    · simp [h, h', hd]

/-- One step of the loop of the single-cluster generator. -/
theorem esLoopBody_eq (LSConfigs : TemplateRegistry) (project : Cluster)
    (clusterId clusterName : GoString) (zipWriter : ZipWriter) (pipelineFile : GoString)
    (configFile : ConfigurationCheckbox) :
    esLoopBody LSConfigs project clusterId clusterName (zipWriter, pipelineFile) configFile =
      if configFile.IsChecked = true then
        if fitsZip (esEntry LSConfigs project clusterId clusterName configFile).1 = true then
          some (zipWriter ++
              [storedEntry (esEntry LSConfigs project clusterId clusterName configFile)],
            pipelineFile ++ esBlock clusterId clusterName configFile)
        else none
      else some (zipWriter, pipelineFile) := by
  unfold esLoopBody
  by_cases hc : configFile.IsChecked = true
  · simp only [hc, if_true, WriteFileToZip_eq, esEntry]
    by_cases hf :
        fitsZip (clusterName ++ "-".toList ++ clusterId ++ "/".toList ++ configFile.Id) = true
    · simp only [hf, if_true, esBlock]
      simp only [List.append_assoc]
    · have hf' : fitsZip
          (clusterName ++ "-".toList ++ clusterId ++ "/".toList ++ configFile.Id) = false := by
        simpa using hf
      simp only [hf', Bool.false_eq_true, if_false]
  · simp only [hc, if_false]
    rfl

/-- The loop of the single-cluster generator appends one entry and one manifest
block per checked checkbox, and panics when a name does not fit. -/
theorem es_foldl (LSConfigs : TemplateRegistry) (project : Cluster)
    (clusterId clusterName : GoString) :
    ∀ (configFiles : List ConfigurationCheckbox) (zipWriter : ZipWriter) (pipelineFile : GoString),
      configFiles.foldlM (esLoopBody LSConfigs project clusterId clusterName)
          (zipWriter, pipelineFile) =
        if (checked configFiles).all
            (fun configFile =>
              fitsZip (esEntry LSConfigs project clusterId clusterName configFile).1) = true then
          some (zipWriter ++ (checked configFiles).map
              (fun configFile =>
                storedEntry (esEntry LSConfigs project clusterId clusterName configFile)),
            pipelineFile ++ ((checked configFiles).map (esBlock clusterId clusterName)).flatten)
        else none
  | [], zipWriter, pipelineFile => by simp [checked]
  | configFile :: rest, zipWriter, pipelineFile => by
    rw [List.foldlM_cons, esLoopBody_eq]
    by_cases hc : configFile.IsChecked = true
    · by_cases hf : fitsZip (esEntry LSConfigs project clusterId clusterName configFile).1 = true
      · simp only [hc, hf, if_true, Option.some_bind, Option.bind_eq_bind,
          es_foldl LSConfigs project clusterId clusterName rest]
        simp [checked, hc, hf]
      · simp only [hc, hf, if_true, if_false, Option.none_bind, Option.bind_eq_bind]
        simp [checked, hc, hf]
    · simp only [hc, if_false, Option.some_bind, Option.bind_eq_bind,
        es_foldl LSConfigs project clusterId clusterName rest]
      simp [checked, hc]

/-- The single-cluster generator in closed form. -/
theorem GenerateES_eq (LSConfigs : TemplateRegistry) (project : Cluster)
    (clusterId clusterName : GoString) (zipWriter : ZipWriter) :
    GenerateESLogstashConfigurationFiles LSConfigs project clusterId clusterName zipWriter =
      if (checked project.LogstashConfigurations.EsMonitoringConfigurationFiles).all
          (fun configFile =>
            fitsZip (esEntry LSConfigs project clusterId clusterName configFile).1) = true then
        some (zipWriter ++
          (checked project.LogstashConfigurations.EsMonitoringConfigurationFiles).map
            (fun configFile =>
              storedEntry (esEntry LSConfigs project clusterId clusterName configFile)) ++
          [("pipelines.yml".toList,
            "### Configuration files for the cluster: ".toList ++ clusterName ++
              ", clusterId: ".toList ++ clusterId ++ "\n".toList ++
              ((checked project.LogstashConfigurations.EsMonitoringConfigurationFiles).map
                (esBlock clusterId clusterName)).flatten)])
      else none := by
  unfold GenerateESLogstashConfigurationFiles
  have hfit : fitsZip "pipelines.yml".toList = true := by decide
  simp only [es_foldl]
  by_cases h : (checked project.LogstashConfigurations.EsMonitoringConfigurationFiles).all
      (fun configFile =>
        fitsZip (esEntry LSConfigs project clusterId clusterName configFile).1) = true
  · simp only [h, if_true, WriteFileToZip_eq, hfit]
    rfl
  · simp only [h, Bool.false_eq_true, if_false]

/-- One step of the inner loop of the per-host generator. -/
theorem lsLoopBody_eq (LSConfigs : TemplateRegistry) (project : Cluster) (clusterId : GoString)
    (logstashHost : LogstashHost) (zipWriter : ZipWriter) (pipelineFile : GoString)
    (configFile : ConfigurationCheckbox) :
    lsLoopBody LSConfigs project clusterId logstashHost (zipWriter, pipelineFile) configFile =
      if configFile.IsChecked = true then
        if fitsZip (lsEntry LSConfigs project clusterId logstashHost configFile).1 = true then
          some (zipWriter ++
              [storedEntry (lsEntry LSConfigs project clusterId logstashHost configFile)],
            pipelineFile ++ lsBlock configFile)
        else none
      else some (zipWriter, pipelineFile) := by
  unfold lsLoopBody
  by_cases hc : configFile.IsChecked = true
  · simp only [hc, if_true, WriteFileToZip_eq, lsEntry]
    by_cases hf : fitsZip
        (filepathJoin [logstashHost.ServerAddress, "dbeast-mon".toList, configFile.Id]) = true
    · simp only [hf, if_true, lsBlock]
      simp only [List.append_assoc]
    · have hf' : fitsZip
          (filepathJoin [logstashHost.ServerAddress, "dbeast-mon".toList, configFile.Id]) =
          false := by
        simpa using hf
      simp only [hf', Bool.false_eq_true, if_false]
  · simp only [hc, if_false]
    rfl

/-- The inner loop of the per-host generator appends one entry and one manifest
block per checked checkbox, and panics when a name does not fit. -/
theorem ls_foldl (LSConfigs : TemplateRegistry) (project : Cluster) (clusterId : GoString)
    (logstashHost : LogstashHost) :
    ∀ (configFiles : List ConfigurationCheckbox) (zipWriter : ZipWriter) (pipelineFile : GoString),
      configFiles.foldlM (lsLoopBody LSConfigs project clusterId logstashHost)
          (zipWriter, pipelineFile) =
        if (checked configFiles).all
            (fun configFile =>
              fitsZip (lsEntry LSConfigs project clusterId logstashHost configFile).1) = true then
          some (zipWriter ++ (checked configFiles).map
              (fun configFile =>
                storedEntry (lsEntry LSConfigs project clusterId logstashHost configFile)),
            pipelineFile ++ ((checked configFiles).map lsBlock).flatten)
        else none
  | [], zipWriter, pipelineFile => by simp [checked]
  | configFile :: rest, zipWriter, pipelineFile => by
    rw [List.foldlM_cons, lsLoopBody_eq]
    by_cases hc : configFile.IsChecked = true
    · by_cases hf : fitsZip (lsEntry LSConfigs project clusterId logstashHost configFile).1 = true
      · simp only [hc, hf, if_true, Option.some_bind, Option.bind_eq_bind,
          ls_foldl LSConfigs project clusterId logstashHost rest]
        simp [checked, hc, hf]
      · simp only [hc, hf, if_true, if_false, Option.none_bind, Option.bind_eq_bind]
        simp [checked, hc, hf]
    · simp only [hc, if_false, Option.some_bind, Option.bind_eq_bind,
        ls_foldl LSConfigs project clusterId logstashHost rest]
      simp [checked, hc]

/-- Whether every entry of a host can be created: the rendered files of the
checked checkboxes and the manifest. -/
theorem hostFits_def (LSConfigs : TemplateRegistry) (project : Cluster) (clusterId : GoString)
    (logstashHost : LogstashHost) :
    hostFits LSConfigs project clusterId logstashHost =
      ((checked
          project.LogstashConfigurations.LogstashMonitoringConfigurationFiles.Configurations).all
          (fun configFile =>
            fitsZip (lsEntry LSConfigs project clusterId logstashHost configFile).1) &&
        fitsZip (filepathJoin [logstashHost.ServerAddress, "pipelines.yml".toList])) :=
  rfl

/-- The entries the per-host generator writes for one host: the rendered files,
then the manifest. -/
theorem lsHostBody_eq (LSConfigs : TemplateRegistry) (project : Cluster) (clusterId : GoString)
    (zipWriter : ZipWriter) (logstashHost : LogstashHost) :
    lsHostBody LSConfigs project clusterId zipWriter logstashHost =
      if hostFits LSConfigs project clusterId logstashHost = true then
        some (zipWriter ++ hostEntries LSConfigs project clusterId logstashHost)
      else none := by
  unfold lsHostBody
  simp only [ls_foldl, hostFits_def, hostEntries]
  by_cases h : (checked
      project.LogstashConfigurations.LogstashMonitoringConfigurationFiles.Configurations).all
      (fun configFile =>
        fitsZip (lsEntry LSConfigs project clusterId logstashHost configFile).1) = true
  · by_cases hm : fitsZip (filepathJoin [logstashHost.ServerAddress, "pipelines.yml".toList]) =
        true
    · simp only [h, hm, if_true, WriteFileToZip_eq, Bool.and_self, List.append_assoc]
    · have hm' : fitsZip (filepathJoin [logstashHost.ServerAddress, "pipelines.yml".toList]) =
          false := by simpa using hm
      simp only [h, hm', if_true, WriteFileToZip_eq, Bool.and_false, Bool.false_eq_true,
        if_false]
  · have h' : (checked
        project.LogstashConfigurations.LogstashMonitoringConfigurationFiles.Configurations).all
        (fun configFile =>
          fitsZip (lsEntry LSConfigs project clusterId logstashHost configFile).1) = false := by
      simpa using h
    simp only [h', Bool.false_and, Bool.false_eq_true, if_false]

/-- The outer loop of the per-host generator concatenates the entries of the
hosts, and panics when an entry of a host does not fit. -/
theorem ls_hosts_foldl (LSConfigs : TemplateRegistry) (project : Cluster) (clusterId : GoString) :
    ∀ (hosts : List LogstashHost) (zipWriter : ZipWriter),
      hosts.foldlM (lsHostBody LSConfigs project clusterId) zipWriter =
        if hosts.all (hostFits LSConfigs project clusterId) = true then
          some (zipWriter ++ hosts.flatMap (hostEntries LSConfigs project clusterId))
        else none
  | [], zipWriter => by simp
  | logstashHost :: rest, zipWriter => by
    rw [List.foldlM_cons, lsHostBody_eq]
    by_cases hf : hostFits LSConfigs project clusterId logstashHost = true
    · simp only [hf, if_true, Option.some_bind, Option.bind_eq_bind,
        ls_hosts_foldl LSConfigs project clusterId rest]
      simp [hf]
    · simp only [hf, if_false, Option.none_bind, Option.bind_eq_bind]
      simp [hf]

/-- The per-host generator in closed form. -/
theorem GenerateLS_eq (LSConfigs : TemplateRegistry) (project : Cluster) (clusterId : GoString)
    (zipWriter : ZipWriter) :
    GenerateLSLogstashConfigurationFiles LSConfigs project clusterId zipWriter =
      if project.LogstashConfigurations.LogstashMonitoringConfigurationFiles.Hosts.all
          (hostFits LSConfigs project clusterId) = true then
        some (zipWriter ++
          project.LogstashConfigurations.LogstashMonitoringConfigurationFiles.Hosts.flatMap
            (hostEntries LSConfigs project clusterId))
      else none := by
  unfold GenerateLSLogstashConfigurationFiles
  rw [ls_hosts_foldl]
/-! ## When the generators return -/

/-- One step of the inner loop of the per-host generator returns for a checked
checkbox exactly when the path of its rendered file has at most 65535 bytes. -/
theorem lsLoopBody_returns_iff (LSConfigs : TemplateRegistry) (project : Cluster)
    (clusterId : GoString) (logstashHost : LogstashHost) (zipWriter : ZipWriter)
    (pipelineFile : GoString) (configFile : ConfigurationCheckbox)
    (hc : configFile.IsChecked = true) :
    (∃ st, lsLoopBody LSConfigs project clusterId logstashHost (zipWriter, pipelineFile)
        configFile = some st) ↔
      byteLen (filepathJoin [logstashHost.ServerAddress, "dbeast-mon".toList, configFile.Id]) ≤
        65535 := by
  rw [lsLoopBody_eq, if_pos hc]
  by_cases hf : fitsZip (lsEntry LSConfigs project clusterId logstashHost configFile).1 = true
  · rw [if_pos hf]
    exact ⟨fun _ => of_decide_eq_true hf, fun _ => ⟨_, rfl⟩⟩
  · rw [if_neg hf]
    exact ⟨fun ⟨_, h⟩ => absurd h (by simp), fun h => absurd (decide_eq_true h) hf⟩

/-- The single-cluster generator returns an archive exactly when the path of
the rendered file of every checked checkbox has at most 65535 bytes. -/
theorem GenerateES_returns_iff (LSConfigs : TemplateRegistry) (project : Cluster)
    (clusterId clusterName : GoString) (zipWriter : ZipWriter) :
    (∃ out, GenerateESLogstashConfigurationFiles LSConfigs project clusterId clusterName
        zipWriter = some out) ↔
      ∀ configFile ∈ project.LogstashConfigurations.EsMonitoringConfigurationFiles,
        configFile.IsChecked = true →
        byteLen (clusterName ++ "-".toList ++ clusterId ++ "/".toList ++ configFile.Id) ≤
          65535 := by
  rw [GenerateES_eq]
  by_cases hf : (checked project.LogstashConfigurations.EsMonitoringConfigurationFiles).all
      (fun configFile =>
        fitsZip (esEntry LSConfigs project clusterId clusterName configFile).1) = true
  · rw [if_pos hf]
    refine ⟨fun _ configFile hmem hc => ?_, fun _ => ⟨_, rfl⟩⟩
    rw [List.all_eq_true] at hf
    exact of_decide_eq_true (hf configFile (by
      simp only [checked, List.mem_filter]
      exact ⟨hmem, hc⟩))
  · rw [if_neg hf]
    refine ⟨fun ⟨_, h⟩ => absurd h (by simp), fun h => absurd ?_ hf⟩
    rw [List.all_eq_true]
    intro configFile hmem
    simp only [checked, List.mem_filter] at hmem
    exact decide_eq_true (h configFile hmem.1 hmem.2)

/-- Every entry of a host can be created exactly when the path of its manifest
and the paths of the rendered files of the checked checkboxes have at most
65535 bytes. -/
theorem hostFits_iff (LSConfigs : TemplateRegistry) (project : Cluster) (clusterId : GoString)
    (logstashHost : LogstashHost) :
    hostFits LSConfigs project clusterId logstashHost = true ↔
      (byteLen (filepathJoin [logstashHost.ServerAddress, "pipelines.yml".toList]) ≤ 65535 ∧
        ∀ configFile ∈
            project.LogstashConfigurations.LogstashMonitoringConfigurationFiles.Configurations,
          configFile.IsChecked = true →
          byteLen
              (filepathJoin [logstashHost.ServerAddress, "dbeast-mon".toList, configFile.Id]) ≤
            65535) := by
  unfold hostFits
  rw [Bool.and_eq_true, List.all_eq_true]
  constructor
  · rintro ⟨hfiles, hm⟩
    refine ⟨of_decide_eq_true hm, fun configFile hmem hc => ?_⟩
    exact of_decide_eq_true (hfiles configFile (by
      simp only [checked, List.mem_filter]
      exact ⟨hmem, hc⟩))
  · rintro ⟨hm, hfiles⟩
    refine ⟨fun configFile hmem => ?_, decide_eq_true hm⟩
    simp only [checked, List.mem_filter] at hmem
    exact decide_eq_true (hfiles configFile hmem.1 hmem.2)

/-- The per-host generator returns the entries of a host exactly when the path
of its manifest and the paths of the rendered files of the checked checkboxes
have at most 65535 bytes. -/
theorem lsHostBody_returns_iff (LSConfigs : TemplateRegistry) (project : Cluster)
    (clusterId : GoString) (zipWriter : ZipWriter) (logstashHost : LogstashHost) :
    (∃ out, lsHostBody LSConfigs project clusterId zipWriter logstashHost = some out) ↔
      (byteLen (filepathJoin [logstashHost.ServerAddress, "pipelines.yml".toList]) ≤ 65535 ∧
        ∀ configFile ∈
            project.LogstashConfigurations.LogstashMonitoringConfigurationFiles.Configurations,
          configFile.IsChecked = true →
          byteLen
              (filepathJoin [logstashHost.ServerAddress, "dbeast-mon".toList, configFile.Id]) ≤
            65535) := by
  rw [← hostFits_iff LSConfigs project clusterId logstashHost, lsHostBody_eq]
  by_cases hf : hostFits LSConfigs project clusterId logstashHost = true
  · rw [if_pos hf]
    exact ⟨fun _ => hf, fun _ => ⟨_, rfl⟩⟩
  · rw [if_neg hf]
    exact ⟨fun ⟨_, h⟩ => absurd h (by simp), fun h => absurd h hf⟩

/-- The per-host generator returns an archive exactly when, for every host, the
path of its manifest and the paths of the rendered files of the checked
checkboxes have at most 65535 bytes. -/
theorem GenerateLS_returns_iff (LSConfigs : TemplateRegistry) (project : Cluster)
    (clusterId : GoString) (zipWriter : ZipWriter) :
    (∃ out, GenerateLSLogstashConfigurationFiles LSConfigs project clusterId zipWriter =
        some out) ↔
      ∀ logstashHost ∈
          project.LogstashConfigurations.LogstashMonitoringConfigurationFiles.Hosts,
        byteLen (filepathJoin [logstashHost.ServerAddress, "pipelines.yml".toList]) ≤ 65535 ∧
        ∀ configFile ∈
            project.LogstashConfigurations.LogstashMonitoringConfigurationFiles.Configurations,
          configFile.IsChecked = true →
          byteLen
              (filepathJoin [logstashHost.ServerAddress, "dbeast-mon".toList, configFile.Id]) ≤
            65535 := by
  rw [GenerateLS_eq]
  by_cases hf : project.LogstashConfigurations.LogstashMonitoringConfigurationFiles.Hosts.all
      (hostFits LSConfigs project clusterId) = true
  · rw [if_pos hf]
    refine ⟨fun _ logstashHost hmem => ?_, fun _ => ⟨_, rfl⟩⟩
    rw [List.all_eq_true] at hf
    exact (hostFits_iff LSConfigs project clusterId logstashHost).1 (hf logstashHost hmem)
  · rw [if_neg hf]
    refine ⟨fun ⟨_, h⟩ => absurd h (by simp), fun h => absurd ?_ hf⟩
    rw [List.all_eq_true]
    intro logstashHost hmem
    exact (hostFits_iff LSConfigs project clusterId logstashHost).2 (h logstashHost hmem)

/-! ## Lemmas on paths -/

/-- A text without a slash is a single path element. -/
theorem splitSlash_of_no_slash : ∀ a : GoString, '/' ∉ a → splitSlash a = [a]
  | [], _ => rfl
  | c :: cs, h => by
    have hc : c ≠ '/' := fun hc => h (hc ▸ List.mem_cons_self c cs)
    have hcs : '/' ∉ cs := fun hm => h (List.mem_cons_of_mem c hm)
    simp [splitSlash, hc, splitSlash_of_no_slash cs hcs]

/-- The first path element ends at the first slash. -/
theorem splitSlash_append_slash (b : GoString) :
    ∀ a : GoString, '/' ∉ a → splitSlash (a ++ '/' :: b) = a :: splitSlash b
  | [], _ => by simp [splitSlash]
  | c :: cs, h => by
    have hc : c ≠ '/' := fun hc => h (hc ▸ List.mem_cons_self c cs)
    have hcs : '/' ∉ cs := fun hm => h (List.mem_cons_of_mem c hm)
    simp [splitSlash, hc, splitSlash_append_slash b cs hcs]

/-- Joining elements without slashes and splitting again gives the elements. -/
theorem splitSlash_stringsJoin :
    ∀ es : List GoString, es ≠ [] → (∀ e ∈ es, '/' ∉ e) → splitSlash (stringsJoin es ['/']) = es
  | [], h, _ => absurd rfl h
  | [e], _, hs => by
    simp [stringsJoin, splitSlash_of_no_slash e (hs e (by simp))]
  | e :: e' :: rest, _, hs => by
    have ih := splitSlash_stringsJoin (e' :: rest) (by simp)
      (fun x hx => hs x (List.mem_cons_of_mem e hx))
    have he : '/' ∉ e := hs e (by simp)
    have hj : stringsJoin (e :: e' :: rest) ['/'] = e ++ '/' :: stringsJoin (e' :: rest) ['/'] := by
      simp [stringsJoin]
    rw [hj, splitSlash_append_slash _ e he, ih]

/-- Plain elements are all kept by `filepath.Clean`. -/
theorem foldl_cleanStep_plain (rooted : Bool) :
    ∀ (es stack : List GoString), (∀ e ∈ es, plainElement e) →
      es.foldl (cleanStep rooted) stack = es.reverse ++ stack
  | [], _, _ => by simp
  | e :: rest, stack, hs => by
    obtain ⟨h1, _, h3, h4⟩ := hs e (by simp)
    have hstep : cleanStep rooted stack e = e :: stack := by
      simp [cleanStep, h1, h3, h4]
    rw [List.foldl_cons, hstep,
      foldl_cleanStep_plain rooted rest (e :: stack) (fun x hx => hs x (List.mem_cons_of_mem e hx))]
    simp

/-- A path of plain elements is clean. -/
theorem Clean_stringsJoin_plain (e : GoString) (es : List GoString)
    (hs : ∀ x ∈ e :: es, plainElement x) :
    Clean (stringsJoin (e :: es) ['/']) = stringsJoin (e :: es) ['/'] := by
  obtain ⟨h1, h2, _, _⟩ := hs e (by simp)
  obtain ⟨c, cs, rfl⟩ := List.exists_cons_of_ne_nil h1
  have hc : c ≠ '/' := fun hc => h2 (hc ▸ List.mem_cons_self c cs)
  have hsplit := splitSlash_stringsJoin ((c :: cs) :: es) (by simp) (fun x hx => (hs x hx).2.1)
  have hhead : ∃ tl, stringsJoin ((c :: cs) :: es) ['/'] = c :: tl := by
    cases es with
    | nil => exact ⟨cs, rfl⟩
    | cons e' rest => exact ⟨_, rfl⟩
  obtain ⟨tl, htl⟩ := hhead
  unfold Clean
  rw [hsplit]
  simp only [foldl_cleanStep_plain _ _ _ hs]
  simp [htl, hc]

/-- A path has at least one element. -/
theorem splitSlash_ne_nil : ∀ a : GoString, splitSlash a ≠ []
  | [] => by simp [splitSlash]
  | c :: cs => by
    unfold splitSlash
    by_cases hc : c = '/'
    · simp [hc]
    · simp only [hc, if_false]
      split <;> simp

/-- The elements of `x/y` are those of `x`, then those of `y`. -/
theorem splitSlash_append (y : GoString) :
    ∀ x : GoString, splitSlash (x ++ '/' :: y) = splitSlash x ++ splitSlash y
  | [] => by simp [splitSlash]
  | c :: cs => by
    have ih := splitSlash_append y cs
    by_cases hc : c = '/'
    · simp [splitSlash, hc, ih]
    · obtain ⟨e, es, hes⟩ := List.exists_cons_of_ne_nil (splitSlash_ne_nil cs)
      simp [splitSlash, hc, ih, hes]

/-- Joining elements that end with `y` gives a text that ends with `y`. -/
theorem stringsJoin_concat (y sep : GoString) :
    ∀ es : List GoString, ∃ pre, stringsJoin (es ++ [y]) sep = pre ++ y
  | [] => ⟨[], rfl⟩
  | [e] => ⟨e ++ sep, by simp [stringsJoin]⟩
  | e :: e' :: rest => by
    obtain ⟨pre, hpre⟩ := stringsJoin_concat y sep (e' :: rest)
    refine ⟨e ++ sep ++ pre, ?_⟩
    have : stringsJoin (e :: e' :: rest ++ [y]) sep =
        e ++ sep ++ stringsJoin (e' :: rest ++ [y]) sep := by
      simp [stringsJoin]
    rw [this, hpre]
    simp

/-- The cleaned form of `x/y` ends with `y`, when `y` is a plain element. -/
theorem Clean_append_plain (x y : GoString) (hy : plainElement y) :
    ∃ pre, Clean (x ++ '/' :: y) = pre ++ y := by
  obtain ⟨h1, h2, h3, h4⟩ := hy
  have hsplit : splitSlash (x ++ '/' :: y) = splitSlash x ++ [y] := by
    rw [splitSlash_append, splitSlash_of_no_slash y h2]
  have hne : x ++ '/' :: y ≠ [] := by simp
  unfold Clean
  simp only [hne, if_false, hsplit, List.foldl_append, List.foldl_cons, List.foldl_nil]
  generalize List.foldl (cleanStep ((x ++ '/' :: y).head? == some '/')) [] (splitSlash x) = stack
  generalize ((x ++ '/' :: y).head? == some '/') = rooted
  have hstep : cleanStep rooted stack y = y :: stack := by
    simp [cleanStep, h1, h3, h4]
  rw [hstep, List.reverse_cons]
  obtain ⟨pre, hpre⟩ := stringsJoin_concat y ['/'] stack.reverse
  rw [hpre]
  have hout : (if rooted = true then ['/'] else []) ++ (pre ++ y) ≠ [] := by
    simp [h1]
  simp only [hout, if_false]
  exact ⟨(if rooted = true then ['/'] else []) ++ pre, by simp⟩

/-- The manifest of a host is written under a name that ends with
`pipelines.yml`. -/
theorem manifestName_ends (serverAddress : GoString) :
    ∃ pre, filepathJoin [serverAddress, "pipelines.yml".toList] =
      pre ++ "pipelines.yml".toList := by
  have hp : plainElement "pipelines.yml".toList := by
    refine ⟨?_, ?_, ?_, ?_⟩ <;> decide
  by_cases hs : serverAddress = []
  · exact ⟨[], by rw [hs]; decide⟩
  · obtain ⟨pre, hpre⟩ := Clean_append_plain serverAddress "pipelines.yml".toList hp
    refine ⟨pre, ?_⟩
    simp only [filepathJoin, hs, if_false]
    rw [← hpre]
    simp [stringsJoin]

/-- The manifest of a host is stored with its content. -/
theorem storedEntry_manifest (serverAddress content : GoString) :
    storedEntry (filepathJoin [serverAddress, "pipelines.yml".toList], content) =
      (filepathJoin [serverAddress, "pipelines.yml".toList], content) := by
  obtain ⟨pre, hpre⟩ := manifestName_ends serverAddress
  unfold storedEntry
  have hlast : (filepathJoin [serverAddress, "pipelines.yml".toList]).getLast? = some 'l' := by
    rw [hpre, List.getLast?_append]
    rfl
  have hne : ¬ (some 'l' = some '/') := by decide
  simp only [hlast, hne, if_false]

/-! ## Lemmas on the placeholder tokens -/

/-- The text of a boolean has neither `<` nor `>`. -/
theorem formatBool_no_bracket (b : Bool) : '<' ∉ formatBool b ∧ '>' ∉ formatBool b := by
  cases b <;> decide

/-- The text of a boolean occurs in none of the `PROD` tokens. -/
theorem formatBool_not_in_prodTokens (b : Bool) : ∀ w ∈ prodTokens, ¬ formatBool b <:+: w := by
  cases b <;> decide

/-- Each `PROD` token starts with `<`, ends with `>` and is not empty. -/
theorem prodTokens_shape :
    ∀ w ∈ prodTokens, w ≠ [] ∧ w.head? = some '<' ∧ w.getLast? = some '>' := by
  decide

/-- The length in bytes of a concatenation. -/
theorem byteLen_append : ∀ a b : GoString, byteLen (a ++ b) = byteLen a + byteLen b
  | [], b => by simp [byteLen]
  | c :: a, b => by simp [byteLen, byteLen_append a b, Nat.add_assoc]

/-- The length in bytes of a run of the letter `a`. -/
theorem byteLen_replicate : ∀ n : Nat, byteLen (List.replicate n 'a') = n
  | 0 => rfl
  | n + 1 => by
    have h1 : 'a'.utf8Size = 1 := by decide
    rw [List.replicate_succ, byteLen, byteLen_replicate n, h1, Nat.add_comm]

/-- A name that ends with `longName` cannot be created. -/
theorem fitsZip_longName (pre post : GoString) : fitsZip (pre ++ longName ++ post) = false := by
  unfold fitsZip longName
  rw [byteLen_append, byteLen_append, byteLen_replicate]
  exact decide_eq_false (by omega)

/-- When `p ++ x` occurs in `p ++ y`, `x` is a prefix of `y` from some
position on. -/
theorem prefix_drop_of_infix_common_prefix (p x y : GoString) (h : p ++ x <:+: p ++ y) :
    ∃ k, k + x.length ≤ y.length ∧ x.isPrefixOf (y.drop k) = true := by
  obtain ⟨a, b, hab⟩ := h
  have h1 : (a ++ (p ++ x) ++ b).drop (p.length + a.length) = x ++ b := by
    have : a ++ (p ++ x) ++ b = (a ++ p) ++ (x ++ b) := by simp
    rw [this]
    exact List.drop_left' (by simp [Nat.add_comm])
  have h2 : (p ++ y).drop (p.length + a.length) = y.drop a.length := List.drop_append a.length
  rw [hab, h2] at h1
  refine ⟨a.length, ?_, ?_⟩
  · have hl := congrArg List.length hab
    simp only [List.length_append] at hl
    omega
  · rw [List.isPrefixOf_iff_prefix, h1]
    exact List.prefix_append x b

/-- The SSL token of an environment contains none of that environment's other
three tokens. -/
theorem ssl_token_has_no_other_token (env : GoString) :
    ¬ ("<".toList ++ env ++ "_HOST>".toList) <:+: ("<".toList ++ env ++ "_SSL_ENABLED>".toList) ∧
    ¬ ("<".toList ++ env ++ "_USER>".toList) <:+: ("<".toList ++ env ++ "_SSL_ENABLED>".toList) ∧
    ¬ ("<".toList ++ env ++ "_PASSWORD>".toList) <:+:
        ("<".toList ++ env ++ "_SSL_ENABLED>".toList) := by
  have key : ∀ x : GoString, (∀ k < 14, x.isPrefixOf ("_SSL_ENABLED>".toList.drop k) = false) →
      ¬ ("<".toList ++ env ++ x) <:+: ("<".toList ++ env ++ "_SSL_ENABLED>".toList) := by
    intro x hx h
    obtain ⟨k, hk, hp⟩ := prefix_drop_of_infix_common_prefix _ _ _ h
    by_cases hk' : k < 14
    · rw [hx k hk'] at hp
      exact Bool.false_ne_true hp
    · have hd : "_SSL_ENABLED>".toList.drop k = [] := List.drop_of_length_le (by
        have : "_SSL_ENABLED>".toList.length = 13 := by decide
        omega)
      rw [hd] at hp
      have hx0 := hx 13 (by omega)
      have hd13 : "_SSL_ENABLED>".toList.drop 13 = [] := by decide
      rw [hd13, hp] at hx0
      exact Bool.noConfusion hx0
  exact ⟨key _ (by decide), key _ (by decide), key _ (by decide)⟩

/-! ## Single-cluster rendering -/

/-- C1, as stated, fails: under the identifier `sub/` the entry is a directory
entry and has no content, though the rendered template is `body c1`. -/
theorem single_cluster_rendering_counterexample :
    GenerateESLogstashConfigurationFiles (constRegistry "body <CLUSTER_ID>".toList)
        (oneEsProject "sub/".toList) "c1".toList "acme".toList [] =
      some [("acme-c1/sub/".toList, []),
       ("pipelines.yml".toList,
        ("### Configuration files for the cluster: acme, clusterId: c1\n" ++
         "- pipeline.id: sub/-acme-c1\n" ++
         "  path.config: \"/etc/logstash/conf.d/acme-c1/sub/\"\n\n").toList)] ∧
    UpdateConnectionSettings
        (UpdateConnectionSettings
          (ReplaceAll ((constRegistry "body <CLUSTER_ID>".toList).get "sub/".toList)
            "<CLUSTER_ID>".toList "c1".toList)
          (oneEsProject "sub/".toList).ClusterConnectionSettings.Mon.Elasticsearch "MON".toList)
        (oneEsProject "sub/".toList).ClusterConnectionSettings.Prod.Elasticsearch
        "PROD".toList = "body c1".toList ∧
    "body c1".toList ≠ [] := by
  decide

/-- C1, amended: when the name of every entry is at most 65535 bytes long, the
single-cluster generator returns an archive whose entries before the manifest
are, in list order, one per checked checkbox `f`, with path
`clusterName-clusterId/f` and, unless that path ends in `/`, content the
template of `f` after the `<CLUSTER_ID>`, then `MON`, then `PROD`
substitutions; under a path that ends in `/` the entry has no content.  In the
end-to-end scenario the archive is `acme-c1/health.conf` with content
`c1 https://es.acme.com true`, followed by the manifest. -/
theorem single_cluster_rendering (LSConfigs : TemplateRegistry) (project : Cluster)
    (clusterName clusterId : GoString) (zipWriter : ZipWriter)
    (hfit : ∀ configFile ∈ project.LogstashConfigurations.EsMonitoringConfigurationFiles,
      configFile.IsChecked = true →
      byteLen (clusterName ++ "-".toList ++ clusterId ++ "/".toList ++ configFile.Id) ≤ 65535) :
    (∃ out, GenerateESLogstashConfigurationFiles LSConfigs project clusterId clusterName
        zipWriter = some out ∧
      out.dropLast =
        zipWriter ++
          (project.LogstashConfigurations.EsMonitoringConfigurationFiles.filter
            (fun configFile => configFile.IsChecked)).map
            (fun configFile =>
              (clusterName ++ "-".toList ++ clusterId ++ "/".toList ++ configFile.Id,
               if (clusterName ++ "-".toList ++ clusterId ++ "/".toList ++
                   configFile.Id).getLast? = some '/' then []
               else
                 UpdateConnectionSettings
                   (UpdateConnectionSettings
                     (ReplaceAll (LSConfigs.get configFile.Id) "<CLUSTER_ID>".toList clusterId)
                     project.ClusterConnectionSettings.Mon.Elasticsearch "MON".toList)
                   project.ClusterConnectionSettings.Prod.Elasticsearch "PROD".toList))) ∧
    GenerateESLogstashConfigurationFiles scenarioRegistry scenarioProject "c1".toList
        "acme".toList [] =
      some [("acme-c1/health.conf".toList, "c1 https://es.acme.com true".toList),
       ("pipelines.yml".toList,
        ("### Configuration files for the cluster: acme, clusterId: c1\n" ++
         "- pipeline.id: health-acme-c1\n" ++
         "  path.config: \"/etc/logstash/conf.d/acme-c1/health.conf\"\n\n").toList)] := by
  refine ⟨?_, by decide⟩
  have hall : (checked project.LogstashConfigurations.EsMonitoringConfigurationFiles).all
      (fun configFile =>
        fitsZip (esEntry LSConfigs project clusterId clusterName configFile).1) = true := by
    rw [List.all_eq_true]
    intro configFile hmem
    simp only [checked, List.mem_filter] at hmem
    exact decide_eq_true (hfit configFile hmem.1 hmem.2)
  rw [GenerateES_eq, if_pos hall]
  refine ⟨_, rfl, ?_⟩
  rw [List.dropLast_concat]
  rfl

/-- Witness for `single_cluster_rendering`: the end-to-end scenario. -/
theorem single_cluster_rendering_witness :
    ∃ out, GenerateESLogstashConfigurationFiles scenarioRegistry scenarioProject "c1".toList
        "acme".toList [] = some out ∧
      out.dropLast = [("acme-c1/health.conf".toList, "c1 https://es.acme.com true".toList)] :=
  match (single_cluster_rendering scenarioRegistry scenarioProject "acme".toList "c1".toList []
    (by decide)).1 with
  | ⟨out, hout, hdrop⟩ => ⟨out, hout, hdrop.trans (by decide)⟩

/-! ## Placeholder substitution -/

/-- C2, as stated, fails: a password that spells a token puts that token into
the result. -/
theorem prod_tokens_counterexample :
    UpdateConnectionSettings "<PROD_PASSWORD>".toList
        ⟨"https://es.acme.com".toList, true, "elastic".toList, "<PROD_HOST>".toList, []⟩
        "PROD".toList = "<PROD_HOST>".toList ∧
    Contains
      (UpdateConnectionSettings "<PROD_PASSWORD>".toList
        ⟨"https://es.acme.com".toList, true, "elastic".toList, "<PROD_HOST>".toList, []⟩
        "PROD".toList)
      "<PROD_HOST>".toList = true := by
  decide

/-- C2, amended: for all credentials and templates the result of the `PROD`
substitution has no `<PROD_SSL_ENABLED>`; and when host, user name and password
have neither `<` nor `>` and are not a substring of one of the four tokens
(the empty text is one), none of the four tokens is left. -/
theorem prod_tokens_removed (c : Credentials) (t : GoString) :
    ¬ "<PROD_SSL_ENABLED>".toList <:+: UpdateConnectionSettings t c "PROD".toList ∧
    ((∀ v ∈ [c.Host, c.Username, c.Password],
        '<' ∉ v ∧ '>' ∉ v ∧ ∀ w ∈ prodTokens, ¬ v <:+: w) →
      ¬ "<PROD_HOST>".toList <:+: UpdateConnectionSettings t c "PROD".toList ∧
      ¬ "<PROD_USER>".toList <:+: UpdateConnectionSettings t c "PROD".toList ∧
      ¬ "<PROD_PASSWORD>".toList <:+: UpdateConnectionSettings t c "PROD".toList ∧
      ¬ "<PROD_SSL_ENABLED>".toList <:+: UpdateConnectionSettings t c "PROD".toList) := by
  have hH : "<".toList ++ "PROD".toList ++ "_HOST>".toList = "<PROD_HOST>".toList := by decide
  have hU : "<".toList ++ "PROD".toList ++ "_USER>".toList = "<PROD_USER>".toList := by decide
  have hP : "<".toList ++ "PROD".toList ++ "_PASSWORD>".toList = "<PROD_PASSWORD>".toList := by
    decide
  have hS : "<".toList ++ "PROD".toList ++ "_SSL_ENABLED>".toList =
      "<PROD_SSL_ENABLED>".toList := by decide
  have mH : "<PROD_HOST>".toList ∈ prodTokens := by decide
  have mU : "<PROD_USER>".toList ∈ prodTokens := by decide
  have mP : "<PROD_PASSWORD>".toList ∈ prodTokens := by decide
  have mS : "<PROD_SSL_ENABLED>".toList ∈ prodTokens := by decide
  -- a value that fits the condition neither starts nor ends a token and is not inside one
  have fit : ∀ v : GoString, ('<' ∉ v ∧ '>' ∉ v ∧ ∀ w ∈ prodTokens, ¬ v <:+: w) →
      ∀ w ∈ prodTokens, v ≠ [] ∧ (∀ ch ∈ v, w.head? ≠ some ch) ∧
        (∀ ch, w.getLast? = some ch → ch ∉ v) ∧ ¬ v <:+: w := by
    intro v ⟨hlt, hgt, hsub⟩ w hw
    obtain ⟨_, hhead, hlast⟩ := prodTokens_shape w hw
    refine ⟨?_, ?_, ?_, hsub w hw⟩
    · rintro rfl
      exact hsub w hw List.nil_infix
    · intro ch hch hh
      rw [hhead] at hh
      exact hlt (Option.some.inj hh ▸ hch)
    · intro ch hh hch
      rw [hlast] at hh
      exact hgt (Option.some.inj hh ▸ hch)
  have fitB : ∀ w ∈ prodTokens, formatBool (Contains c.Host "https".toList) ≠ [] ∧
      (∀ ch ∈ formatBool (Contains c.Host "https".toList), w.head? ≠ some ch) ∧
      (∀ ch, w.getLast? = some ch → ch ∉ formatBool (Contains c.Host "https".toList)) ∧
      ¬ formatBool (Contains c.Host "https".toList) <:+: w :=
    fit _ ⟨(formatBool_no_bracket _).1, (formatBool_no_bracket _).2,
      formatBool_not_in_prodTokens _⟩
  have neH : "<PROD_HOST>".toList ≠ [] := by decide
  have neU : "<PROD_USER>".toList ≠ [] := by decide
  have neP : "<PROD_PASSWORD>".toList ≠ [] := by decide
  have neS : "<PROD_SSL_ENABLED>".toList ≠ [] := by decide
  simp only [UpdateConnectionSettings, hH, hU, hP, hS]
  have sslGone : ∀ s : GoString, ¬ "<PROD_SSL_ENABLED>".toList <:+:
      ReplaceAll s "<PROD_SSL_ENABLED>".toList (formatBool (Contains c.Host "https".toList)) :=
    fun s => not_infix_ReplaceAll_self s _ _ neS (fitB _ mS).1 (fitB _ mS).2.1 (fitB _ mS).2.2.1
      (fitB _ mS).2.2.2
  refine ⟨sslGone _, fun hclean => ?_⟩
  have fh := fit c.Host (hclean c.Host (by simp))
  have fu := fit c.Username (hclean c.Username (by simp))
  have fp := fit c.Password (hclean c.Password (by simp))
  refine ⟨?_, ?_, ?_, sslGone _⟩
  · apply not_infix_ReplaceAll _ _ _ _ neS neH (fitB _ mH).1 (fitB _ mH).2.1 (fitB _ mH).2.2.1
      (fitB _ mH).2.2.2
    apply not_infix_ReplaceAll _ _ _ _ neP neH (fp _ mH).1 (fp _ mH).2.1 (fp _ mH).2.2.1
      (fp _ mH).2.2.2
    apply not_infix_ReplaceAll _ _ _ _ neU neH (fu _ mH).1 (fu _ mH).2.1 (fu _ mH).2.2.1
      (fu _ mH).2.2.2
    exact not_infix_ReplaceAll_self _ _ _ neH (fh _ mH).1 (fh _ mH).2.1 (fh _ mH).2.2.1
      (fh _ mH).2.2.2
  · apply not_infix_ReplaceAll _ _ _ _ neS neU (fitB _ mU).1 (fitB _ mU).2.1 (fitB _ mU).2.2.1
      (fitB _ mU).2.2.2
    apply not_infix_ReplaceAll _ _ _ _ neP neU (fp _ mU).1 (fp _ mU).2.1 (fp _ mU).2.2.1
      (fp _ mU).2.2.2
    exact not_infix_ReplaceAll_self _ _ _ neU (fu _ mU).1 (fu _ mU).2.1 (fu _ mU).2.2.1
      (fu _ mU).2.2.2
  · apply not_infix_ReplaceAll _ _ _ _ neS neP (fitB _ mP).1 (fitB _ mP).2.1 (fitB _ mP).2.2.1
      (fitB _ mP).2.2.2
    exact not_infix_ReplaceAll_self _ _ _ neP (fp _ mP).1 (fp _ mP).2.1 (fp _ mP).2.2.1
      (fp _ mP).2.2.2

/-- Witness for `prod_tokens_removed`: the scenario host, the user `elastic` and
the password `Passw0rd`, on a template that nests tokens. -/
theorem prod_tokens_removed_witness :
    (∀ v ∈ ["https://es.acme.com".toList, "elastic".toList, "Passw0rd".toList],
        '<' ∉ v ∧ '>' ∉ v ∧ ∀ w ∈ prodTokens, ¬ v <:+: w) ∧
    ¬ "<PROD_HOST>".toList <:+:
      UpdateConnectionSettings
        "<PROD_HOST> <PROD_<PROD_PASSWORD>HOST> <PROD_USER> <PROD_SSL_ENABLED>".toList
        ⟨"https://es.acme.com".toList, true, "elastic".toList, "Passw0rd".toList, []⟩
        "PROD".toList :=
  ⟨by decide,
   ((prod_tokens_removed
      ⟨"https://es.acme.com".toList, true, "elastic".toList, "Passw0rd".toList, []⟩
      "<PROD_HOST> <PROD_<PROD_PASSWORD>HOST> <PROD_USER> <PROD_SSL_ENABLED>".toList).2
      (by decide)).1⟩

/-- C3: the text substituted for `<env_SSL_ENABLED>` is `true` when the host
contains `https` and `false` otherwise, for every environment tag; on the
template that is exactly this token the result is that text. -/
theorem ssl_enabled_text (c : Credentials) (env : GoString) :
    (∀ t : GoString, UpdateConnectionSettings t c env =
      ReplaceAll
        (ReplaceAll
          (ReplaceAll
            (ReplaceAll t ("<".toList ++ env ++ "_HOST>".toList) c.Host)
            ("<".toList ++ env ++ "_USER>".toList) c.Username)
          ("<".toList ++ env ++ "_PASSWORD>".toList) c.Password)
        ("<".toList ++ env ++ "_SSL_ENABLED>".toList)
        (if "https".toList <:+: c.Host then "true".toList else "false".toList)) ∧
    UpdateConnectionSettings ("<".toList ++ env ++ "_SSL_ENABLED>".toList) c env =
      (if "https".toList <:+: c.Host then "true".toList else "false".toList) ∧
    UpdateConnectionSettings "<PROD_SSL_ENABLED>".toList c "PROD".toList =
      (if "https".toList <:+: c.Host then "true".toList else "false".toList) := by
  have hfmt : formatBool (Contains c.Host "https".toList) =
      (if "https".toList <:+: c.Host then "true".toList else "false".toList) := by
    by_cases h : "https".toList <:+: c.Host
    · rw [if_pos h, (Contains_iff_occurs _ _).2 h]
      rfl
    · have hf : Contains c.Host "https".toList = false := by
        rw [← Bool.not_eq_true, Contains_iff_occurs]
        exact h
      rw [if_neg h, hf]
      rfl
  have htoken : ∀ e : GoString,
      UpdateConnectionSettings ("<".toList ++ e ++ "_SSL_ENABLED>".toList) c e =
        (if "https".toList <:+: c.Host then "true".toList else "false".toList) := by
    intro e
    obtain ⟨h1, h2, h3⟩ := ssl_token_has_no_other_token e
    simp only [UpdateConnectionSettings]
    rw [ReplaceAll_of_absent _ _ _ h1, ReplaceAll_of_absent _ _ _ h2,
      ReplaceAll_of_absent _ _ _ h3, ReplaceAll_self _ _ (by simp), hfmt]
  refine ⟨fun t => ?_, htoken env, htoken "PROD".toList⟩
  simp only [UpdateConnectionSettings, hfmt]

/-! ## Bundle shape -/

/-- A rendered file of the single-cluster bundle is never named
`pipelines.yml`: its path has a slash. -/
theorem es_path_ne_manifest (clusterName clusterId id : GoString) :
    clusterName ++ "-".toList ++ clusterId ++ "/".toList ++ id ≠ "pipelines.yml".toList := by
  intro h
  have hmem : '/' ∈ clusterName ++ "-".toList ++ clusterId ++ "/".toList ++ id := by simp
  rw [h] at hmem
  exact absurd hmem (by decide)

/-- The single-cluster generator returns when every name fits. -/
theorem es_all_fit (LSConfigs : TemplateRegistry) (project : Cluster)
    (clusterName clusterId : GoString)
    (hfit : ∀ configFile ∈ project.LogstashConfigurations.EsMonitoringConfigurationFiles,
      configFile.IsChecked = true →
      byteLen (clusterName ++ "-".toList ++ clusterId ++ "/".toList ++ configFile.Id) ≤ 65535) :
    (checked project.LogstashConfigurations.EsMonitoringConfigurationFiles).all
      (fun configFile =>
        fitsZip (esEntry LSConfigs project clusterId clusterName configFile).1) = true := by
  rw [List.all_eq_true]
  intro configFile hmem
  simp only [checked, List.mem_filter] at hmem
  exact decide_eq_true (hfit configFile hmem.1 hmem.2)

/-- The single-cluster generator panics on a single checked checkbox whose
identifier is `longName`. -/
theorem GenerateES_longName (LSConfigs : TemplateRegistry) (clusterId clusterName : GoString)
    (zipWriter : ZipWriter) :
    GenerateESLogstashConfigurationFiles LSConfigs (oneEsProject longName) clusterId clusterName
      zipWriter = none := by
  have hc : checked (oneEsProject longName).LogstashConfigurations.EsMonitoringConfigurationFiles =
      [⟨[], longName, true⟩] := rfl
  have hf : fitsZip (esEntry LSConfigs (oneEsProject longName) clusterId clusterName
      ⟨[], longName, true⟩).1 = false := by
    have h := fitsZip_longName (clusterName ++ "-".toList ++ clusterId ++ "/".toList) []
    rw [List.append_nil] at h
    exact h
  rw [GenerateES_eq, hc, List.all_cons, hf]
  rfl

/-- C4, as stated, fails: with one checked checkbox whose identifier has 65536
bytes the generator panics and no entry is written, not `N + 1 = 2`. -/
theorem single_cluster_bundle_shape_counterexample :
    GenerateESLogstashConfigurationFiles scenarioRegistry (oneEsProject longName) "c1".toList
        "acme".toList [] = none ∧
    (checked
      (oneEsProject longName).LogstashConfigurations.EsMonitoringConfigurationFiles).length + 1 =
      2 :=
  ⟨GenerateES_longName scenarioRegistry "c1".toList "acme".toList [], rfl⟩

/-- C4, amended: when the name of every entry is at most 65535 bytes long, with
`N` checked checkboxes the single-cluster generator returns an archive of
`N + 1` entries: the rendered files of the checked checkboxes in list order,
then one entry `pipelines.yml`, the only one of that name, whose content is the
header line followed by one `pipeline.id`/`path.config` block per checked
checkbox, in list order. -/
theorem single_cluster_bundle_shape (LSConfigs : TemplateRegistry) (project : Cluster)
    (clusterName clusterId : GoString)
    (hfit : ∀ configFile ∈ project.LogstashConfigurations.EsMonitoringConfigurationFiles,
      configFile.IsChecked = true →
      byteLen (clusterName ++ "-".toList ++ clusterId ++ "/".toList ++ configFile.Id) ≤ 65535) :
    (∃ out, GenerateESLogstashConfigurationFiles LSConfigs project clusterId clusterName [] =
        some out ∧
      out.length =
        (checked project.LogstashConfigurations.EsMonitoringConfigurationFiles).length + 1 ∧
      out.map Prod.fst =
        (checked project.LogstashConfigurations.EsMonitoringConfigurationFiles).map
            (fun configFile =>
              clusterName ++ "-".toList ++ clusterId ++ "/".toList ++ configFile.Id) ++
          ["pipelines.yml".toList] ∧
      (out.map Prod.fst).count "pipelines.yml".toList = 1 ∧
      out.getLast? =
        some ("pipelines.yml".toList,
          "### Configuration files for the cluster: ".toList ++ clusterName ++
            ", clusterId: ".toList ++ clusterId ++ "\n".toList ++
            ((checked project.LogstashConfigurations.EsMonitoringConfigurationFiles).map
              (fun configFile =>
                "- pipeline.id: ".toList ++
                  (ReplaceAll configFile.Id ".conf".toList [] ++ "-".toList ++ clusterName ++
                    "-".toList ++ clusterId) ++ "\n".toList ++
                ("  path.config: \"/etc/logstash/conf.d/".toList ++
                  (clusterName ++ "-".toList ++ clusterId ++ "/".toList ++ configFile.Id) ++
                  "\"\n\n".toList))).flatten)) ∧
    (∀ zipWriter : ZipWriter,
      GenerateESLogstashConfigurationFiles LSConfigs project clusterId clusterName zipWriter =
        (GenerateESLogstashConfigurationFiles LSConfigs project clusterId clusterName []).map
          (fun out => zipWriter ++ out)) := by
  have hall := es_all_fit LSConfigs project clusterName clusterId hfit
  have hpaths :
      ((checked project.LogstashConfigurations.EsMonitoringConfigurationFiles).map
          (fun configFile =>
            storedEntry (esEntry LSConfigs project clusterId clusterName configFile)) ++
        [("pipelines.yml".toList,
          "### Configuration files for the cluster: ".toList ++ clusterName ++
            ", clusterId: ".toList ++ clusterId ++ "\n".toList ++
            ((checked project.LogstashConfigurations.EsMonitoringConfigurationFiles).map
              (esBlock clusterId clusterName)).flatten)]).map Prod.fst =
      (checked project.LogstashConfigurations.EsMonitoringConfigurationFiles).map
          (fun configFile =>
            clusterName ++ "-".toList ++ clusterId ++ "/".toList ++ configFile.Id) ++
        ["pipelines.yml".toList] := by
    simp [esEntry, storedEntry, Function.comp_def]
  have hgen : GenerateESLogstashConfigurationFiles LSConfigs project clusterId clusterName [] =
      some ((checked project.LogstashConfigurations.EsMonitoringConfigurationFiles).map
          (fun configFile =>
            storedEntry (esEntry LSConfigs project clusterId clusterName configFile)) ++
        [("pipelines.yml".toList,
          "### Configuration files for the cluster: ".toList ++ clusterName ++
            ", clusterId: ".toList ++ clusterId ++ "\n".toList ++
            ((checked project.LogstashConfigurations.EsMonitoringConfigurationFiles).map
              (esBlock clusterId clusterName)).flatten)]) := by
    rw [GenerateES_eq, if_pos hall, List.nil_append]
  refine ⟨⟨_, hgen, ?_, hpaths, ?_, ?_⟩, ?_⟩
  · simp
  · rw [hpaths, List.count_append]
    have h0 : ((checked project.LogstashConfigurations.EsMonitoringConfigurationFiles).map
          (fun configFile =>
            clusterName ++ "-".toList ++ clusterId ++ "/".toList ++ configFile.Id)).count
          "pipelines.yml".toList = 0 := by
      rw [List.count_eq_zero]
      intro hmem
      obtain ⟨configFile, _, hcf⟩ := List.mem_map.1 hmem
      exact es_path_ne_manifest clusterName clusterId configFile.Id hcf
    rw [h0]
    simp
  · rw [List.getLast?_concat]
    rfl
  · intro zipWriter
    rw [GenerateES_eq, GenerateES_eq, if_pos hall, if_pos hall]
    simp

/-- Witness for `single_cluster_bundle_shape`: two checked checkboxes and an
unchecked one give three entries. -/
theorem single_cluster_bundle_shape_witness :
    ∃ out, GenerateESLogstashConfigurationFiles scenarioRegistry twoCheckedProject "c1".toList
        "acme".toList [] = some out ∧
      out.map Prod.fst =
        ["acme-c1/health.conf".toList, "acme-c1/nodes.conf".toList, "pipelines.yml".toList] :=
  match (single_cluster_bundle_shape scenarioRegistry twoCheckedProject "acme".toList
    "c1".toList (by decide)).1 with
  | ⟨out, hout, _, hnames, _, _⟩ => ⟨out, hout, hnames.trans (by decide)⟩

/-- The per-host generator returns when every host fits. -/
theorem ls_all_fit (LSConfigs : TemplateRegistry) (project : Cluster) (clusterId : GoString)
    (hfit : ∀ logstashHost ∈
        project.LogstashConfigurations.LogstashMonitoringConfigurationFiles.Hosts,
      byteLen (filepathJoin [logstashHost.ServerAddress, "pipelines.yml".toList]) ≤ 65535 ∧
      ∀ configFile ∈
          project.LogstashConfigurations.LogstashMonitoringConfigurationFiles.Configurations,
        configFile.IsChecked = true →
        byteLen (filepathJoin [logstashHost.ServerAddress, "dbeast-mon".toList, configFile.Id]) ≤
          65535) :
    project.LogstashConfigurations.LogstashMonitoringConfigurationFiles.Hosts.all
      (hostFits LSConfigs project clusterId) = true := by
  rw [List.all_eq_true]
  intro logstashHost hmem
  obtain ⟨hm, hfiles⟩ := hfit logstashHost hmem
  unfold hostFits
  rw [Bool.and_eq_true, List.all_eq_true]
  refine ⟨?_, decide_eq_true hm⟩
  intro configFile hcf
  simp only [checked, List.mem_filter] at hcf
  exact decide_eq_true (hfiles configFile hcf.1 hcf.2)

/-- A run of at least three letters `a` is a plain path element. -/
theorem plainElement_replicate (n : Nat) (hn : 3 ≤ n) : plainElement (List.replicate n 'a') := by
  have hlen : (List.replicate n 'a').length = n := List.length_replicate n 'a'
  refine ⟨?_, ?_, ?_, ?_⟩
  · intro h
    rw [h] at hlen
    simp only [List.length_nil] at hlen
    omega
  · intro h
    exact absurd (List.eq_of_mem_replicate h) (by decide)
  · intro h
    rw [h] at hlen
    simp only [List.length_cons, List.length_nil] at hlen
    omega
  · intro h
    rw [h] at hlen
    simp only [List.length_cons, List.length_nil] at hlen
    omega

/-- The per-host name of a file under the server address `longName`. -/
theorem filepathJoin_longName (id : GoString) (hid : plainElement id) :
    filepathJoin [longName, "dbeast-mon".toList, id] =
      longName ++ "/dbeast-mon/".toList ++ id := by
  have hl : plainElement longName := plainElement_replicate 65536 (by omega)
  have hd : plainElement "dbeast-mon".toList := by
    refine ⟨?_, ?_, ?_, ?_⟩ <;> decide
  have h := Clean_stringsJoin_plain longName ["dbeast-mon".toList, id] (by
    intro x hx
    simp only [List.mem_cons, List.mem_singleton, List.not_mem_nil, or_false] at hx
    rcases hx with rfl | rfl | rfl
    · exact hl
    · exact hd
    · exact hid)
  simp only [filepathJoin, hl.1, if_false, h]
  simp [stringsJoin]

/-- C5, as stated, fails: with one host whose server address has 65536 bytes and
one checked checkbox the generator panics and no entry is written, not
`H * K + H = 2`. -/
theorem per_host_bundle_shape_counterexample :
    GenerateLSLogstashConfigurationFiles scenarioRegistry
        (oneHostProject longName "x.conf".toList) "c1".toList [] = none ∧
    (oneHostProject longName
        "x.conf".toList).LogstashConfigurations.LogstashMonitoringConfigurationFiles.Hosts.length *
      (checked (oneHostProject longName
        "x.conf".toList).LogstashConfigurations.LogstashMonitoringConfigurationFiles.Configurations).length +
      (oneHostProject longName
        "x.conf".toList).LogstashConfigurations.LogstashMonitoringConfigurationFiles.Hosts.length =
      2 := by
  refine ⟨?_, rfl⟩
  have hx : plainElement "x.conf".toList := by
    refine ⟨?_, ?_, ?_, ?_⟩ <;> decide
  have hc : checked (oneHostProject longName
      "x.conf".toList).LogstashConfigurations.LogstashMonitoringConfigurationFiles.Configurations =
      [⟨[], "x.conf".toList, true⟩] := rfl
  have hh : (oneHostProject longName
      "x.conf".toList).LogstashConfigurations.LogstashMonitoringConfigurationFiles.Hosts =
      [⟨longName, [], []⟩] := rfl
  have hf : hostFits scenarioRegistry (oneHostProject longName "x.conf".toList) "c1".toList
      ⟨longName, [], []⟩ = false := by
    unfold hostFits
    rw [hc, List.all_cons]
    have h1 : fitsZip (lsEntry scenarioRegistry (oneHostProject longName "x.conf".toList)
        "c1".toList ⟨longName, [], []⟩ ⟨[], "x.conf".toList, true⟩).1 = false := by
      simp only [lsEntry]
      rw [filepathJoin_longName _ hx]
      have h := fitsZip_longName [] ("/dbeast-mon/".toList ++ "x.conf".toList)
      rw [List.nil_append, ← List.append_assoc] at h
      exact h
    rw [h1]
    rfl
  rw [GenerateLS_eq, hh, List.all_cons, hf]
  rfl

/-- C5, amended: when the name of every entry is at most 65535 bytes long, with
`H` hosts and `K` checked checkboxes the per-host generator returns an archive
of `H * K + H` entries, grouped per host in host-list order: the `K` rendered
files of the checked checkboxes in list order, then that host's manifest,
which is a header line followed by `K` blocks in list order; without hosts the
archive has no entries. -/
theorem per_host_bundle_shape (LSConfigs : TemplateRegistry) (project : Cluster)
    (clusterId : GoString)
    (hfit : ∀ logstashHost ∈
        project.LogstashConfigurations.LogstashMonitoringConfigurationFiles.Hosts,
      byteLen (filepathJoin [logstashHost.ServerAddress, "pipelines.yml".toList]) ≤ 65535 ∧
      ∀ configFile ∈
          project.LogstashConfigurations.LogstashMonitoringConfigurationFiles.Configurations,
        configFile.IsChecked = true →
        byteLen (filepathJoin [logstashHost.ServerAddress, "dbeast-mon".toList, configFile.Id]) ≤
          65535) :
    (∃ out, GenerateLSLogstashConfigurationFiles LSConfigs project clusterId [] = some out ∧
      out =
        project.LogstashConfigurations.LogstashMonitoringConfigurationFiles.Hosts.flatMap
          (fun logstashHost =>
            (checked
              project.LogstashConfigurations.LogstashMonitoringConfigurationFiles.Configurations).map
                (fun configFile =>
                  storedEntry (lsEntry LSConfigs project clusterId logstashHost configFile)) ++
            [(filepathJoin [logstashHost.ServerAddress, "pipelines.yml".toList],
              "### Configuration files for the Logstash monitoring\n".toList ++
                ((checked
                  project.LogstashConfigurations.LogstashMonitoringConfigurationFiles.Configurations).map
                  (fun configFile =>
                    "- pipeline.id: ".toList ++ ReplaceAll configFile.Id ".conf".toList [] ++
                      "\n".toList ++
                    ("  path.config: \"/etc/logstash/conf.d/dbeast-mon/".toList ++
                      configFile.Id ++ "\"\n\n".toList))).flatten)]) ∧
      out.length =
        project.LogstashConfigurations.LogstashMonitoringConfigurationFiles.Hosts.length *
            (checked
              project.LogstashConfigurations.LogstashMonitoringConfigurationFiles.Configurations).length +
          project.LogstashConfigurations.LogstashMonitoringConfigurationFiles.Hosts.length) ∧
    (∀ (settings : EnvironmentConfig) (esFiles configurations : List ConfigurationCheckbox),
      GenerateLSLogstashConfigurationFiles LSConfigs
        ⟨settings, ⟨esFiles, ⟨configurations, []⟩⟩⟩ clusterId [] = some []) := by
  have hall := ls_all_fit LSConfigs project clusterId hfit
  have hentries : ∀ logstashHost : LogstashHost,
      hostEntries LSConfigs project clusterId logstashHost =
        (checked
          project.LogstashConfigurations.LogstashMonitoringConfigurationFiles.Configurations).map
            (fun configFile =>
              storedEntry (lsEntry LSConfigs project clusterId logstashHost configFile)) ++
        [(filepathJoin [logstashHost.ServerAddress, "pipelines.yml".toList],
          "### Configuration files for the Logstash monitoring\n".toList ++
            ((checked
              project.LogstashConfigurations.LogstashMonitoringConfigurationFiles.Configurations).map
              (fun configFile =>
                "- pipeline.id: ".toList ++ ReplaceAll configFile.Id ".conf".toList [] ++
                  "\n".toList ++
                ("  path.config: \"/etc/logstash/conf.d/dbeast-mon/".toList ++
                  configFile.Id ++ "\"\n\n".toList))).flatten)] := by
    intro logstashHost
    unfold hostEntries
    rw [storedEntry_manifest]
    rfl
  refine ⟨⟨_, ?_, rfl, ?_⟩, ?_⟩
  · rw [GenerateLS_eq, if_pos hall, List.nil_append, funext hentries]
  · generalize project.LogstashConfigurations.LogstashMonitoringConfigurationFiles.Hosts = hosts
    induction hosts with
    | nil => simp
    | cons logstashHost rest ih =>
      simp only [List.flatMap_cons, List.length_append, List.length_map,
        List.length_cons, List.length_nil, ih]
      ring
  · intro settings esFiles configurations
    rfl

/-- Witness for `per_host_bundle_shape`: one host and one checked checkbox out of
two give two entries. -/
theorem per_host_bundle_shape_witness :
    ∃ out, GenerateLSLogstashConfigurationFiles scenarioRegistry mixedProject "c1".toList [] =
        some out ∧
      out.map Prod.fst =
        ["10.0.0.5/dbeast-mon/api.conf".toList, "10.0.0.5/pipelines.yml".toList] :=
  match (per_host_bundle_shape scenarioRegistry mixedProject "c1".toList (by decide)).1 with
  | ⟨out, hout, hform, _⟩ => ⟨out, hout, by rw [hform]; decide⟩

/-! ## Pipeline identifiers -/

/-- C6: for the identifier `x.config.conf` the pipeline id written to the
manifest starts with `xig`, not with `x.config`, in both modes: the code removes
every instance of `.conf`, not the trailing one alone; for `cluster-health.conf`
the ids are `cluster-health-acme-abc123` and `cluster-health`. -/
theorem pipeline_id_removes_every_conf :
    ReplaceAll "x.config.conf".toList ".conf".toList [] = "xig".toList ∧
    "xig".toList ≠ "x.config".toList ∧
    (esLoopBody scenarioRegistry scenarioProject "abc123".toList "acme".toList ([], [])
        ⟨[], "x.config.conf".toList, true⟩).map Prod.snd =
      some ("- pipeline.id: xig-acme-abc123\n" ++
       "  path.config: \"/etc/logstash/conf.d/acme-abc123/x.config.conf\"\n\n").toList ∧
    (lsLoopBody scenarioRegistry scenarioProject "abc123".toList ⟨"h".toList, [], []⟩ ([], [])
        ⟨[], "x.config.conf".toList, true⟩).map Prod.snd =
      some ("- pipeline.id: xig\n" ++
       "  path.config: \"/etc/logstash/conf.d/dbeast-mon/x.config.conf\"\n\n").toList ∧
    (esLoopBody scenarioRegistry scenarioProject "abc123".toList "acme".toList ([], [])
        ⟨[], "cluster-health.conf".toList, true⟩).map Prod.snd =
      some ("- pipeline.id: cluster-health-acme-abc123\n" ++
       "  path.config: \"/etc/logstash/conf.d/acme-abc123/cluster-health.conf\"\n\n").toList ∧
    (lsLoopBody scenarioRegistry scenarioProject "abc123".toList ⟨"h".toList, [], []⟩ ([], [])
        ⟨[], "cluster-health.conf".toList, true⟩).map Prod.snd =
      some ("- pipeline.id: cluster-health\n" ++
       "  path.config: \"/etc/logstash/conf.d/dbeast-mon/cluster-health.conf\"\n\n").toList := by
  decide

/-! ## Manifest and files -/

/-- C7: in every archive the single-cluster generator returns, the block of the
`i`-th checked checkbox names, after `/etc/logstash/conf.d/`, the path of the
`i`-th rendered entry, which is `clusterName-clusterId/f`; in per-host mode the
entries written for one host are the rendered files of the checked checkboxes
in list order and then the manifest, whose blocks name `dbeast-mon/f` for the
same checkboxes in the same order; in the end-to-end scenario the manifest has
the lines for `health-acme-c1`; the single-cluster generator returns an archive
exactly when the path of every rendered file has at most 65535 bytes, and the
per-host generator returns the entries of a host exactly when the paths of its
rendered files and of its manifest have at most 65535 bytes. -/
theorem manifest_matches_files (LSConfigs : TemplateRegistry) (project : Cluster)
    (clusterName clusterId : GoString) (logstashHost : LogstashHost) :
    (∀ out, GenerateESLogstashConfigurationFiles LSConfigs project clusterId clusterName [] =
        some out →
      out.getLast? =
        some ("pipelines.yml".toList,
          "### Configuration files for the cluster: ".toList ++ clusterName ++
            ", clusterId: ".toList ++ clusterId ++ "\n".toList ++
            (List.zipWith
              (fun (configFile : ConfigurationCheckbox) (entry : GoString × GoString) =>
                "- pipeline.id: ".toList ++
                  (ReplaceAll configFile.Id ".conf".toList [] ++ "-".toList ++ clusterName ++
                    "-".toList ++ clusterId) ++ "\n".toList ++
                ("  path.config: \"/etc/logstash/conf.d/".toList ++ entry.1 ++
                  "\"\n\n".toList))
              (checked project.LogstashConfigurations.EsMonitoringConfigurationFiles)
              out.dropLast).flatten) ∧
      out.dropLast.map Prod.fst =
        (checked project.LogstashConfigurations.EsMonitoringConfigurationFiles).map
          (fun configFile =>
            clusterName ++ "-".toList ++ clusterId ++ "/".toList ++ configFile.Id)) ∧
    (∀ out, lsHostBody LSConfigs project clusterId [] logstashHost = some out →
      out =
        (checked
          project.LogstashConfigurations.LogstashMonitoringConfigurationFiles.Configurations).map
            (fun configFile =>
              storedEntry (lsEntry LSConfigs project clusterId logstashHost configFile)) ++
          [(filepathJoin [logstashHost.ServerAddress, "pipelines.yml".toList],
            "### Configuration files for the Logstash monitoring\n".toList ++
              ((checked
                project.LogstashConfigurations.LogstashMonitoringConfigurationFiles.Configurations).map
                (fun configFile =>
                  "- pipeline.id: ".toList ++ ReplaceAll configFile.Id ".conf".toList [] ++
                    "\n".toList ++
                  ("  path.config: \"/etc/logstash/conf.d/".toList ++
                    ("dbeast-mon/".toList ++ configFile.Id) ++ "\"\n\n".toList))).flatten)]) ∧
    ((GenerateESLogstashConfigurationFiles scenarioRegistry scenarioProject "c1".toList
        "acme".toList []).bind List.getLast?).map
        (fun entry =>
          (entry.1,
           Contains entry.2 "- pipeline.id: health-acme-c1\n".toList,
           Contains entry.2
             "  path.config: \"/etc/logstash/conf.d/acme-c1/health.conf\"\n".toList)) =
      some ("pipelines.yml".toList, true, true) ∧
    ((∃ out, GenerateESLogstashConfigurationFiles LSConfigs project clusterId clusterName [] =
        some out) ↔
      ∀ configFile ∈ project.LogstashConfigurations.EsMonitoringConfigurationFiles,
        configFile.IsChecked = true →
        byteLen (clusterName ++ "-".toList ++ clusterId ++ "/".toList ++ configFile.Id) ≤
          65535) ∧
    ((∃ out, lsHostBody LSConfigs project clusterId [] logstashHost = some out) ↔
      (byteLen (filepathJoin [logstashHost.ServerAddress, "pipelines.yml".toList]) ≤ 65535 ∧
        ∀ configFile ∈
            project.LogstashConfigurations.LogstashMonitoringConfigurationFiles.Configurations,
          configFile.IsChecked = true →
          byteLen
              (filepathJoin [logstashHost.ServerAddress, "dbeast-mon".toList, configFile.Id]) ≤
            65535)) := by
  refine ⟨?_, ?_, ?_, GenerateES_returns_iff _ _ _ _ _, lsHostBody_returns_iff _ _ _ _ _⟩
  · intro out hout
    rw [GenerateES_eq] at hout
    split at hout
    · rw [List.nil_append] at hout
      have hout' := (Option.some.inj hout).symm
      subst hout'
      refine ⟨?_, ?_⟩
      · rw [List.getLast?_concat, List.dropLast_concat, List.zipWith_map_right,
          List.zipWith_same]
        rfl
      · rw [List.dropLast_concat, List.map_map]
        rfl
    · exact absurd hout (by simp)
  · intro out hout
    rw [lsHostBody_eq] at hout
    split at hout
    · rw [List.nil_append] at hout
      have hout' := (Option.some.inj hout).symm
      subst hout'
      unfold hostEntries
      rw [storedEntry_manifest]
      rfl
    · exact absurd hout (by simp)
  · decide

/-- Witness for `manifest_matches_files`: in the archive of the end-to-end
scenario the only block names the path of the only rendered entry. -/
theorem manifest_matches_files_witness :
    ([("acme-c1/health.conf".toList, "c1 https://es.acme.com true".toList),
       ("pipelines.yml".toList,
        ("### Configuration files for the cluster: acme, clusterId: c1\n" ++
         "- pipeline.id: health-acme-c1\n" ++
         "  path.config: \"/etc/logstash/conf.d/acme-c1/health.conf\"\n\n").toList)] :
      ZipWriter).dropLast.map Prod.fst = ["acme-c1/health.conf".toList] :=
  ((manifest_matches_files scenarioRegistry scenarioProject "acme".toList "c1".toList
    ⟨[], [], []⟩).1 _ (by decide)).2.trans (by decide)

/-! ## Per-host rendering and paths -/

/-- C8, as stated, fails: for the server address `/` and the identifier `..` the
rendered file is written under the name `/`, a directory entry, and has no
content, though the rendered template is `x`. -/
theorem per_host_rendering_counterexample :
    GenerateLSLogstashConfigurationFiles (constRegistry "x".toList)
        (oneHostProject "/".toList "..".toList) "c1".toList [] =
      some [("/".toList, []),
       ("/pipelines.yml".toList,
        ("### Configuration files for the Logstash monitoring\n" ++
         "- pipeline.id: ..\n" ++
         "  path.config: \"/etc/logstash/conf.d/dbeast-mon/..\"\n\n").toList)] ∧
    UpdateLogstashConnectionSettings
        (UpdateConnectionSettings
          (ReplaceAll ((constRegistry "x".toList).get "..".toList) "<CLUSTER_ID>".toList
            "c1".toList)
          (oneHostProject "/".toList
            "..".toList).ClusterConnectionSettings.Mon.Elasticsearch "MON".toList)
        ⟨"/".toList, [], []⟩ = "x".toList ∧
    "x".toList ≠ [] := by
  decide

/-- C8, amended: when the name of every entry is at most 65535 bytes long, the
per-host generator returns an archive whose entries are, host by host, one
rendered file per checked checkbox `f`, whose content, unless the name of the
entry ends in `/`, is the template of `f` after the `<CLUSTER_ID>` substitution
with the one cluster id, the `MON` substitution, and the host substitution,
followed by the manifest of the host; under a name that ends in `/` the entry
has no content.  The host substitution replaces `<PATH_TO_LOGS>` by the logs
folder and then `<LOGSTASH-API>` by the API host; the production credentials
have no effect on the bundle. -/
theorem per_host_rendering (LSConfigs : TemplateRegistry) (project : Cluster)
    (clusterId : GoString)
    (hfit : ∀ logstashHost ∈
        project.LogstashConfigurations.LogstashMonitoringConfigurationFiles.Hosts,
      byteLen (filepathJoin [logstashHost.ServerAddress, "pipelines.yml".toList]) ≤ 65535 ∧
      ∀ configFile ∈
          project.LogstashConfigurations.LogstashMonitoringConfigurationFiles.Configurations,
        configFile.IsChecked = true →
        byteLen (filepathJoin [logstashHost.ServerAddress, "dbeast-mon".toList, configFile.Id]) ≤
          65535) :
    GenerateLSLogstashConfigurationFiles LSConfigs project clusterId [] =
      some (project.LogstashConfigurations.LogstashMonitoringConfigurationFiles.Hosts.flatMap
        (fun logstashHost =>
          (checked
            project.LogstashConfigurations.LogstashMonitoringConfigurationFiles.Configurations).map
              (fun configFile =>
                (filepathJoin [logstashHost.ServerAddress, "dbeast-mon".toList, configFile.Id],
                 if (filepathJoin [logstashHost.ServerAddress, "dbeast-mon".toList,
                     configFile.Id]).getLast? = some '/' then []
                 else
                   UpdateLogstashConnectionSettings
                     (UpdateConnectionSettings
                       (ReplaceAll (LSConfigs.get configFile.Id) "<CLUSTER_ID>".toList clusterId)
                       project.ClusterConnectionSettings.Mon.Elasticsearch "MON".toList)
                     logstashHost)) ++
          [(filepathJoin [logstashHost.ServerAddress, "pipelines.yml".toList],
            "### Configuration files for the Logstash monitoring\n".toList ++
              ((checked
                project.LogstashConfigurations.LogstashMonitoringConfigurationFiles.Configurations).map
                lsBlock).flatten)])) ∧
    (∀ (t : GoString) (logstashHost : LogstashHost),
      UpdateLogstashConnectionSettings t logstashHost =
        ReplaceAll (ReplaceAll t "<PATH_TO_LOGS>".toList logstashHost.LogstashLogsFolder)
          "<LOGSTASH-API>".toList logstashHost.LogstashApiHost) ∧
    (∀ prod : ProdEnvironment,
      GenerateLSLogstashConfigurationFiles LSConfigs
          ⟨⟨prod, project.ClusterConnectionSettings.Mon⟩, project.LogstashConfigurations⟩
          clusterId [] =
        GenerateLSLogstashConfigurationFiles LSConfigs project clusterId []) := by
  have hall := ls_all_fit LSConfigs project clusterId hfit
  have hentries : ∀ logstashHost : LogstashHost,
      hostEntries LSConfigs project clusterId logstashHost =
        (checked
          project.LogstashConfigurations.LogstashMonitoringConfigurationFiles.Configurations).map
            (fun configFile =>
              (filepathJoin [logstashHost.ServerAddress, "dbeast-mon".toList, configFile.Id],
               if (filepathJoin [logstashHost.ServerAddress, "dbeast-mon".toList,
                   configFile.Id]).getLast? = some '/' then []
               else
                 UpdateLogstashConnectionSettings
                   (UpdateConnectionSettings
                     (ReplaceAll (LSConfigs.get configFile.Id) "<CLUSTER_ID>".toList clusterId)
                     project.ClusterConnectionSettings.Mon.Elasticsearch "MON".toList)
                   logstashHost)) ++
        [(filepathJoin [logstashHost.ServerAddress, "pipelines.yml".toList],
          "### Configuration files for the Logstash monitoring\n".toList ++
            ((checked
              project.LogstashConfigurations.LogstashMonitoringConfigurationFiles.Configurations).map
              lsBlock).flatten)] := by
    intro logstashHost
    unfold hostEntries
    rw [storedEntry_manifest]
    rfl
  refine ⟨?_, fun _ _ => rfl, fun prod => ?_⟩
  · rw [GenerateLS_eq, if_pos hall, List.nil_append, funext hentries]
  · rw [GenerateLS_eq, GenerateLS_eq]
    rfl

/-- Witness for `per_host_rendering`: one host and a template with the host
tokens. -/
theorem per_host_rendering_witness :
    GenerateLSLogstashConfigurationFiles
        (constRegistry "<CLUSTER_ID> <MON_HOST> <PATH_TO_LOGS> <LOGSTASH-API> <PROD_HOST>".toList)
        mixedProject "c1".toList [] =
      some [("10.0.0.5/dbeast-mon/api.conf".toList,
        "c1  /var/log/logstash http://10.0.0.5:9600 <PROD_HOST>".toList),
       ("10.0.0.5/pipelines.yml".toList,
        ("### Configuration files for the Logstash monitoring\n" ++
         "- pipeline.id: api\n" ++
         "  path.config: \"/etc/logstash/conf.d/dbeast-mon/api.conf\"\n\n").toList)] :=
  ((per_host_rendering
    (constRegistry "<CLUSTER_ID> <MON_HOST> <PATH_TO_LOGS> <LOGSTASH-API> <PROD_HOST>".toList)
    mixedProject "c1".toList (by decide)).1).trans (by decide)

/-- C9, as stated, fails: with an empty server address the paths have no leading
slash, a trailing slash of the address is not doubled, and `..` in the
identifier is resolved. -/
theorem per_host_paths_counterexample :
    (GenerateLSLogstashConfigurationFiles scenarioRegistry (oneHostProject [] "x.conf".toList)
        "c1".toList []).map (List.map Prod.fst) =
      some ["dbeast-mon/x.conf".toList, "pipelines.yml".toList] ∧
    "dbeast-mon/x.conf".toList ≠ [] ++ "/dbeast-mon/".toList ++ "x.conf".toList ∧
    "pipelines.yml".toList ≠ [] ++ "/pipelines.yml".toList ∧
    (GenerateLSLogstashConfigurationFiles scenarioRegistry
        (oneHostProject "h/".toList "../x.conf".toList) "c1".toList []).map (List.map Prod.fst) =
      some ["h/x.conf".toList, "h/pipelines.yml".toList] := by
  decide

/-- C9, amended: for a checked checkbox the rendered file is written at
`filepath.Join(s, "dbeast-mon", f)` and the manifest of the host at
`filepath.Join(s, "pipelines.yml")`; for a non-empty `s` these are the cleaned
forms of `s/dbeast-mon/f` and `s/pipelines.yml`, and they are exactly
`s/dbeast-mon/f` and `s/pipelines.yml` when `s` and `f` are plain path
elements; the step of the loop returns exactly when the path of the rendered
file has at most 65535 bytes, and the entries of the host are returned exactly
when the paths of its rendered files and of its manifest have. -/
theorem per_host_archive_paths (LSConfigs : TemplateRegistry) (project : Cluster)
    (clusterId : GoString) (logstashHost : LogstashHost) (zipWriter : ZipWriter)
    (pipelineFile : GoString) (configFile : ConfigurationCheckbox)
    (hc : configFile.IsChecked = true) :
    (∀ st, lsLoopBody LSConfigs project clusterId logstashHost (zipWriter, pipelineFile)
        configFile = some st →
      st.1.map Prod.fst =
        zipWriter.map Prod.fst ++
          [filepathJoin [logstashHost.ServerAddress, "dbeast-mon".toList, configFile.Id]]) ∧
    (∀ out, lsHostBody LSConfigs project clusterId zipWriter logstashHost = some out →
      out.getLast?.map Prod.fst =
        some (filepathJoin [logstashHost.ServerAddress, "pipelines.yml".toList])) ∧
    (logstashHost.ServerAddress ≠ [] →
      filepathJoin [logstashHost.ServerAddress, "dbeast-mon".toList, configFile.Id] =
          Clean (logstashHost.ServerAddress ++ "/dbeast-mon/".toList ++ configFile.Id) ∧
        filepathJoin [logstashHost.ServerAddress, "pipelines.yml".toList] =
          Clean (logstashHost.ServerAddress ++ "/pipelines.yml".toList)) ∧
    (plainElement logstashHost.ServerAddress → plainElement configFile.Id →
      filepathJoin [logstashHost.ServerAddress, "dbeast-mon".toList, configFile.Id] =
        logstashHost.ServerAddress ++ "/dbeast-mon/".toList ++ configFile.Id) ∧
    (plainElement logstashHost.ServerAddress →
      filepathJoin [logstashHost.ServerAddress, "pipelines.yml".toList] =
        logstashHost.ServerAddress ++ "/pipelines.yml".toList) ∧
    ((∃ st, lsLoopBody LSConfigs project clusterId logstashHost (zipWriter, pipelineFile)
        configFile = some st) ↔
      byteLen (filepathJoin [logstashHost.ServerAddress, "dbeast-mon".toList, configFile.Id]) ≤
        65535) ∧
    ((∃ out, lsHostBody LSConfigs project clusterId zipWriter logstashHost = some out) ↔
      (byteLen (filepathJoin [logstashHost.ServerAddress, "pipelines.yml".toList]) ≤ 65535 ∧
        ∀ configFile ∈
            project.LogstashConfigurations.LogstashMonitoringConfigurationFiles.Configurations,
          configFile.IsChecked = true →
          byteLen
              (filepathJoin [logstashHost.ServerAddress, "dbeast-mon".toList, configFile.Id]) ≤
            65535)) := by
  have hd : plainElement "dbeast-mon".toList := by
    refine ⟨?_, ?_, ?_, ?_⟩ <;> decide
  have hp : plainElement "pipelines.yml".toList := by
    refine ⟨?_, ?_, ?_, ?_⟩ <;> decide
  refine ⟨?_, ?_, ?_, ?_, ?_, lsLoopBody_returns_iff _ _ _ _ _ _ _ hc,
    lsHostBody_returns_iff _ _ _ _ _⟩
  · intro st hst
    rw [lsLoopBody_eq, if_pos hc] at hst
    split at hst
    · have hst' := (Option.some.inj hst).symm
      subst hst'
      simp [storedEntry, lsEntry]
    · exact absurd hst (by simp)
  · intro out hout
    rw [lsHostBody_eq] at hout
    split at hout
    · have hout' := (Option.some.inj hout).symm
      subst hout'
      unfold hostEntries
      rw [storedEntry_manifest, ← List.append_assoc, List.getLast?_concat]
      rfl
    · exact absurd hout (by simp)
  · intro hs
    constructor
    · simp [filepathJoin, hs, stringsJoin]
    · simp [filepathJoin, hs, stringsJoin]
  · intro hs hf
    have h := Clean_stringsJoin_plain logstashHost.ServerAddress
      ["dbeast-mon".toList, configFile.Id] (by
        intro x hx
        simp only [List.mem_cons, List.mem_singleton, List.not_mem_nil, or_false] at hx
        rcases hx with rfl | rfl | rfl
        · exact hs
        · exact hd
        · exact hf)
    simp only [filepathJoin, hs.1, if_false, h]
    simp [stringsJoin]
  · intro hs
    have h := Clean_stringsJoin_plain logstashHost.ServerAddress ["pipelines.yml".toList] (by
        intro x hx
        simp only [List.mem_cons, List.mem_singleton, List.not_mem_nil, or_false] at hx
        rcases hx with rfl | rfl
        · exact hs
        · exact hp)
    simp only [filepathJoin, hs.1, if_false, h]
    simp [stringsJoin]

/-- Witness for `per_host_archive_paths`: host `10.0.0.5`, file `x.conf`. -/
theorem per_host_archive_paths_witness :
    filepathJoin ["10.0.0.5".toList, "dbeast-mon".toList, "x.conf".toList] =
      "10.0.0.5/dbeast-mon/x.conf".toList ∧
    filepathJoin ["10.0.0.5".toList, "pipelines.yml".toList] =
      "10.0.0.5/pipelines.yml".toList ∧
    (lsLoopBody scenarioRegistry scenarioProject "c1".toList ⟨"10.0.0.5".toList, [], []⟩
        ([], []) ⟨[], "x.conf".toList, true⟩).map (fun st => st.1.map Prod.fst) =
      some ["10.0.0.5/dbeast-mon/x.conf".toList] :=
  have h := per_host_archive_paths scenarioRegistry scenarioProject "c1".toList
    ⟨"10.0.0.5".toList, [], []⟩ [] [] ⟨[], "x.conf".toList, true⟩ rfl
  ⟨h.2.2.2.1 ⟨by decide, by decide, by decide, by decide⟩
      ⟨by decide, by decide, by decide, by decide⟩,
   h.2.2.2.2.1 ⟨by decide, by decide, by decide, by decide⟩,
   by decide⟩

/-! ## Manifest headers -/

/-- C10, as stated, fails: with no checkbox checked the manifest of a host is
the per-host header line, not the empty text. -/
theorem per_host_manifest_counterexample :
    GenerateLSLogstashConfigurationFiles scenarioRegistry noneCheckedProject "c1".toList [] =
      some [("10.0.0.5/pipelines.yml".toList,
        "### Configuration files for the Logstash monitoring\n".toList),
       ("10.0.0.6/pipelines.yml".toList,
        "### Configuration files for the Logstash monitoring\n".toList)] ∧
    "### Configuration files for the Logstash monitoring\n".toList ≠ [] := by
  decide

/-- C10, amended: in every archive returned the manifest starts with a fixed
header line in both modes,
`### Configuration files for the cluster: <name>, clusterId: <id>` in
single-cluster mode and `### Configuration files for the Logstash monitoring`
in per-host mode; in per-host mode, when no checkbox is checked, the entries
are one manifest per host whose content is exactly that header line; the
single-cluster generator returns an archive exactly when the path of every
rendered file has at most 65535 bytes, and the per-host generator exactly when
the paths of the rendered files and of the manifests of all hosts have. -/
theorem manifest_header (LSConfigs : TemplateRegistry) (project : Cluster)
    (clusterName clusterId : GoString) :
    (∀ out, GenerateESLogstashConfigurationFiles LSConfigs project clusterId clusterName [] =
        some out →
      ∃ blocks : GoString,
        out.getLast? =
          some ("pipelines.yml".toList,
            "### Configuration files for the cluster: ".toList ++ clusterName ++
              ", clusterId: ".toList ++ clusterId ++ "\n".toList ++ blocks)) ∧
    (∀ (logstashHost : LogstashHost) (out : ZipWriter),
      lsHostBody LSConfigs project clusterId [] logstashHost = some out →
      ∃ blocks : GoString,
        out.getLast? =
          some (filepathJoin [logstashHost.ServerAddress, "pipelines.yml".toList],
            "### Configuration files for the Logstash monitoring\n".toList ++ blocks)) ∧
    ((∀ configFile ∈
          project.LogstashConfigurations.LogstashMonitoringConfigurationFiles.Configurations,
        configFile.IsChecked = false) →
      ∀ out, GenerateLSLogstashConfigurationFiles LSConfigs project clusterId [] = some out →
        out =
          project.LogstashConfigurations.LogstashMonitoringConfigurationFiles.Hosts.map
            (fun logstashHost =>
              (filepathJoin [logstashHost.ServerAddress, "pipelines.yml".toList],
               "### Configuration files for the Logstash monitoring\n".toList))) ∧
    ((∃ out, GenerateESLogstashConfigurationFiles LSConfigs project clusterId clusterName [] =
        some out) ↔
      ∀ configFile ∈ project.LogstashConfigurations.EsMonitoringConfigurationFiles,
        configFile.IsChecked = true →
        byteLen (clusterName ++ "-".toList ++ clusterId ++ "/".toList ++ configFile.Id) ≤
          65535) ∧
    ((∃ out, GenerateLSLogstashConfigurationFiles LSConfigs project clusterId [] = some out) ↔
      ∀ logstashHost ∈
          project.LogstashConfigurations.LogstashMonitoringConfigurationFiles.Hosts,
        byteLen (filepathJoin [logstashHost.ServerAddress, "pipelines.yml".toList]) ≤ 65535 ∧
        ∀ configFile ∈
            project.LogstashConfigurations.LogstashMonitoringConfigurationFiles.Configurations,
          configFile.IsChecked = true →
          byteLen
              (filepathJoin [logstashHost.ServerAddress, "dbeast-mon".toList, configFile.Id]) ≤
            65535) := by
  refine ⟨fun out hout => ?_, fun logstashHost out hout => ?_, fun hnone out hout => ?_,
    GenerateES_returns_iff _ _ _ _ _, GenerateLS_returns_iff _ _ _ _⟩
  · rw [GenerateES_eq] at hout
    split at hout
    · have hout' := (Option.some.inj hout).symm
      subst hout'
      exact ⟨_, List.getLast?_concat _⟩
    · exact absurd hout (by simp)
  · rw [lsHostBody_eq] at hout
    split at hout
    · have hout' := (Option.some.inj hout).symm
      subst hout'
      unfold hostEntries
      rw [storedEntry_manifest, ← List.append_assoc]
      exact ⟨_, List.getLast?_concat _⟩
    · exact absurd hout (by simp)
  · have hsel : checked
        project.LogstashConfigurations.LogstashMonitoringConfigurationFiles.Configurations =
        [] := by
      unfold checked
      rw [List.filter_eq_nil_iff]
      intro configFile hmem
      simp [hnone configFile hmem]
    have hentries : ∀ logstashHost : LogstashHost,
        hostEntries LSConfigs project clusterId logstashHost =
          [(filepathJoin [logstashHost.ServerAddress, "pipelines.yml".toList],
            "### Configuration files for the Logstash monitoring\n".toList)] := by
      intro logstashHost
      unfold hostEntries
      rw [storedEntry_manifest, hsel]
      rfl
    rw [GenerateLS_eq] at hout
    split at hout
    · have hout' := (Option.some.inj hout).symm
      subst hout'
      rw [List.nil_append, funext hentries]
      generalize project.LogstashConfigurations.LogstashMonitoringConfigurationFiles.Hosts = hosts
      induction hosts with
      | nil => rfl
      | cons logstashHost rest ih =>
        rw [List.flatMap_cons, List.map_cons, ih]
        rfl
    · exact absurd hout (by simp)

/-- Witness for `manifest_header`: two hosts and one unchecked checkbox. -/
theorem manifest_header_witness :
    ([("10.0.0.5/pipelines.yml".toList,
        "### Configuration files for the Logstash monitoring\n".toList),
       ("10.0.0.6/pipelines.yml".toList,
        "### Configuration files for the Logstash monitoring\n".toList)] : ZipWriter) =
      noneCheckedProject.LogstashConfigurations.LogstashMonitoringConfigurationFiles.Hosts.map
        (fun logstashHost =>
          (filepathJoin [logstashHost.ServerAddress, "pipelines.yml".toList],
           "### Configuration files for the Logstash monitoring\n".toList)) :=
  (manifest_header scenarioRegistry noneCheckedProject "acme".toList "c1".toList).2.2.1
    (by decide) _ (by decide)

/-! ## Unchecked checkboxes and missing templates -/

/-- Filtering the checked checkboxes twice is filtering once. -/
theorem checked_checked (configFiles : List ConfigurationCheckbox) :
    checked (checked configFiles) = checked configFiles := by
  simp [checked, List.filter_filter]

/-- C11: in both modes the outcome for a request, the entries written with the
manifests included, is the outcome for the same request with every unchecked
checkbox removed from its checkbox lists; paths and contents are built from the
checked checkboxes alone. -/
theorem unchecked_skipped (LSConfigs : TemplateRegistry) (project : Cluster)
    (clusterId clusterName : GoString) (zipWriter : ZipWriter) :
    GenerateESLogstashConfigurationFiles LSConfigs project clusterId clusterName zipWriter =
      GenerateESLogstashConfigurationFiles LSConfigs (uncheckedRemoved project) clusterId
        clusterName zipWriter ∧
    GenerateLSLogstashConfigurationFiles LSConfigs project clusterId zipWriter =
      GenerateLSLogstashConfigurationFiles LSConfigs (uncheckedRemoved project) clusterId
        zipWriter ∧
    (∀ configFile ∈ (uncheckedRemoved project).LogstashConfigurations.EsMonitoringConfigurationFiles,
      configFile.IsChecked = true) ∧
    (∀ configFile ∈ (uncheckedRemoved
        project).LogstashConfigurations.LogstashMonitoringConfigurationFiles.Configurations,
      configFile.IsChecked = true) ∧
    GenerateESLogstashConfigurationFiles scenarioRegistry mixedProject "c1".toList "acme".toList
        [] =
      some [("acme-c1/health.conf".toList, "c1 https://es.acme.com true".toList),
       ("pipelines.yml".toList,
        ("### Configuration files for the cluster: acme, clusterId: c1\n" ++
         "- pipeline.id: health-acme-c1\n" ++
         "  path.config: \"/etc/logstash/conf.d/acme-c1/health.conf\"\n\n").toList)] := by
  refine ⟨?_, ?_, ?_, ?_, ?_⟩
  · rw [GenerateES_eq, GenerateES_eq]
    simp only [uncheckedRemoved, checked_checked]
    rfl
  · rw [GenerateLS_eq, GenerateLS_eq]
    have hfits : hostFits LSConfigs (uncheckedRemoved project) clusterId =
        hostFits LSConfigs project clusterId := by
      funext logstashHost
      simp only [hostFits, uncheckedRemoved, checked_checked]
      rfl
    have hentries : hostEntries LSConfigs (uncheckedRemoved project) clusterId =
        hostEntries LSConfigs project clusterId := by
      funext logstashHost
      simp only [hostEntries, uncheckedRemoved, checked_checked]
      rfl
    rw [hfits, hentries]
    rfl
  · intro configFile hmem
    simp only [uncheckedRemoved, checked, List.mem_filter] at hmem
    exact hmem.2
  · intro configFile hmem
    simp only [uncheckedRemoved, checked, List.mem_filter] at hmem
    exact hmem.2
  · decide

/-- Replacing a non-empty `old` in the empty text gives the empty text. -/
theorem ReplaceAll_nil (old new : GoString) (hold : old ≠ []) : ReplaceAll [] old new = [] :=
  ReplaceAll_of_absent [] old new (fun h => hold (List.infix_nil.1 h))

/-- The environment substitution leaves a text without the four tokens as it
is. -/
theorem UpdateConnectionSettings_of_absent (t : GoString) (c : Credentials) (env : GoString)
    (hH : ¬ ("<".toList ++ env ++ "_HOST>".toList) <:+: t)
    (hU : ¬ ("<".toList ++ env ++ "_USER>".toList) <:+: t)
    (hP : ¬ ("<".toList ++ env ++ "_PASSWORD>".toList) <:+: t)
    (hS : ¬ ("<".toList ++ env ++ "_SSL_ENABLED>".toList) <:+: t) :
    UpdateConnectionSettings t c env = t := by
  simp only [UpdateConnectionSettings]
  rw [ReplaceAll_of_absent t _ _ hH, ReplaceAll_of_absent t _ _ hU, ReplaceAll_of_absent t _ _ hP,
    ReplaceAll_of_absent t _ _ hS]

/-- The environment substitution of the empty text is empty. -/
theorem UpdateConnectionSettings_nil (c : Credentials) (env : GoString) :
    UpdateConnectionSettings [] c env = [] := by
  apply UpdateConnectionSettings_of_absent <;>
    · intro h
      have := List.infix_nil.1 h
      simp at this

/-- The host substitution leaves a text without the two tokens as it is. -/
theorem UpdateLogstashConnectionSettings_of_absent (t : GoString) (logstashHost : LogstashHost)
    (hL : ¬ "<PATH_TO_LOGS>".toList <:+: t) (hA : ¬ "<LOGSTASH-API>".toList <:+: t) :
    UpdateLogstashConnectionSettings t logstashHost = t := by
  simp only [UpdateLogstashConnectionSettings]
  rw [ReplaceAll_of_absent t _ _ hL, ReplaceAll_of_absent t _ _ hA]

/-- A registry and the same registry with the empty template under a missing key
give the same template for every key. -/
theorem get_withEmptyTemplate (LSConfigs : TemplateRegistry) (id : GoString)
    (hmiss : LSConfigs id = none) (key : GoString) :
    LSConfigs.get key = (withEmptyTemplate LSConfigs id).get key := by
  unfold TemplateRegistry.get withEmptyTemplate
  by_cases hk : key = id
  · rw [if_pos hk, hk, hmiss]
    rfl
  · rw [if_neg hk]

/-- C12, as stated, fails: for a checked checkbox whose identifier is missing
from the registry and has 65536 bytes, the loop body panics and writes no
entry, in both modes. -/
theorem missing_template_counterexample :
    scenarioRegistry longName = none ∧
    esLoopBody scenarioRegistry scenarioProject "c1".toList "acme".toList ([], [])
        ⟨[], longName, true⟩ = none ∧
    lsLoopBody scenarioRegistry scenarioProject "c1".toList ⟨"h".toList, [], []⟩ ([], [])
        ⟨[], longName, true⟩ = none := by
  refine ⟨?_, ?_, ?_⟩
  · have hne : longName ≠ "health.conf".toList := by
      intro h
      have h1 : 'h' ∈ longName := by
        rw [h]
        decide
      exact absurd (List.eq_of_mem_replicate h1) (by decide)
    simp only [scenarioRegistry, hne, if_false]
  · rw [esLoopBody_eq, if_pos rfl]
    have hf : fitsZip (esEntry scenarioRegistry scenarioProject "c1".toList "acme".toList
        ⟨[], longName, true⟩).1 = false := by
      have h := fitsZip_longName ("acme".toList ++ "-".toList ++ "c1".toList ++ "/".toList) []
      rw [List.append_nil] at h
      exact h
    rw [hf]
    rfl
  · rw [lsLoopBody_eq, if_pos rfl]
    have hf : fitsZip (lsEntry scenarioRegistry scenarioProject "c1".toList
        ⟨"h".toList, [], []⟩ ⟨[], longName, true⟩).1 = false := by
      simp only [lsEntry]
      have hl : plainElement longName := plainElement_replicate 65536 (by omega)
      have hjoin : filepathJoin ["h".toList, "dbeast-mon".toList, longName] =
          "h".toList ++ "/dbeast-mon/".toList ++ longName := by
        have h := Clean_stringsJoin_plain "h".toList ["dbeast-mon".toList, longName] (by
          intro x hx
          simp only [List.mem_cons, List.mem_singleton, List.not_mem_nil, or_false] at hx
          rcases hx with rfl | rfl | rfl
          · exact ⟨by decide, by decide, by decide, by decide⟩
          · exact ⟨by decide, by decide, by decide, by decide⟩
          · exact hl)
        have hh : "h".toList ≠ [] := by decide
        simp only [filepathJoin, hh, if_false, h]
        simp only [stringsJoin, List.append_assoc]
        rfl
      rw [hjoin]
      have h := fitsZip_longName ("h".toList ++ "/dbeast-mon/".toList) []
      rw [List.append_nil] at h
      exact h
    rw [hf]
    rfl

/-- C12, amended: for a checked checkbox whose identifier is not a key of the
registry and whose entry name is at most 65535 bytes long, in both modes the
rendered entry is written at its usual path with empty content and the
manifest block is appended; for every identifier missing from the registry the
outcome of the bundle is the one obtained with the empty template registered
under that identifier. -/
theorem missing_template_tolerated (LSConfigs : TemplateRegistry) (project : Cluster)
    (clusterId clusterName : GoString) (logstashHost : LogstashHost) (zipWriter : ZipWriter)
    (pipelineFile : GoString) (configFile : ConfigurationCheckbox)
    (hc : configFile.IsChecked = true) (hmiss : LSConfigs configFile.Id = none) :
    (byteLen (clusterName ++ "-".toList ++ clusterId ++ "/".toList ++ configFile.Id) ≤ 65535 →
      esLoopBody LSConfigs project clusterId clusterName (zipWriter, pipelineFile) configFile =
        some (zipWriter ++
          [(clusterName ++ "-".toList ++ clusterId ++ "/".toList ++ configFile.Id, [])],
         pipelineFile ++ esBlock clusterId clusterName configFile)) ∧
    (byteLen (filepathJoin [logstashHost.ServerAddress, "dbeast-mon".toList, configFile.Id]) ≤
        65535 →
      lsLoopBody LSConfigs project clusterId logstashHost (zipWriter, pipelineFile) configFile =
        some (zipWriter ++
          [(filepathJoin [logstashHost.ServerAddress, "dbeast-mon".toList, configFile.Id], [])],
         pipelineFile ++ lsBlock configFile)) ∧
    GenerateESLogstashConfigurationFiles LSConfigs project clusterId clusterName zipWriter =
      GenerateESLogstashConfigurationFiles (withEmptyTemplate LSConfigs configFile.Id) project
        clusterId clusterName zipWriter ∧
    GenerateLSLogstashConfigurationFiles LSConfigs project clusterId zipWriter =
      GenerateLSLogstashConfigurationFiles (withEmptyTemplate LSConfigs configFile.Id) project
        clusterId zipWriter := by
  have hget : LSConfigs.get configFile.Id = [] := by
    unfold TemplateRegistry.get
    rw [hmiss]
    rfl
  have hcid : ReplaceAll [] "<CLUSTER_ID>".toList clusterId = [] :=
    ReplaceAll_nil _ _ (by decide)
  have hL : UpdateLogstashConnectionSettings [] logstashHost = [] :=
    UpdateLogstashConnectionSettings_of_absent [] logstashHost (by decide) (by decide)
  have hes : esEntry LSConfigs project clusterId clusterName =
      esEntry (withEmptyTemplate LSConfigs configFile.Id) project clusterId clusterName := by
    funext cf
    simp only [esEntry, get_withEmptyTemplate LSConfigs configFile.Id hmiss]
  have hls : ∀ h : LogstashHost, lsEntry LSConfigs project clusterId h =
      lsEntry (withEmptyTemplate LSConfigs configFile.Id) project clusterId h := by
    intro h
    funext cf
    simp only [lsEntry, get_withEmptyTemplate LSConfigs configFile.Id hmiss]
  have hesEntry : esEntry LSConfigs project clusterId clusterName configFile =
      (clusterName ++ "-".toList ++ clusterId ++ "/".toList ++ configFile.Id, []) := by
    simp only [esEntry, hget, hcid, UpdateMonConnectionSettings, UpdateProdConnectionSettings,
      UpdateConnectionSettings_nil]
  have hlsEntry : lsEntry LSConfigs project clusterId logstashHost configFile =
      (filepathJoin [logstashHost.ServerAddress, "dbeast-mon".toList, configFile.Id], []) := by
    simp only [lsEntry, hget, hcid, UpdateMonConnectionSettings, UpdateConnectionSettings_nil, hL]
  have hstored : ∀ name : GoString, storedEntry (name, []) = (name, []) := by
    intro name
    unfold storedEntry
    split <;> rfl
  refine ⟨?_, ?_, ?_, ?_⟩
  · intro hfit
    have hf : fitsZip
        (clusterName ++ "-".toList ++ clusterId ++ "/".toList ++ configFile.Id, ([] : GoString)).1 =
        true := decide_eq_true hfit
    rw [esLoopBody_eq, if_pos hc, hesEntry, hstored, if_pos hf]
  · intro hfit
    have hf : fitsZip
        (filepathJoin [logstashHost.ServerAddress, "dbeast-mon".toList, configFile.Id],
          ([] : GoString)).1 = true := decide_eq_true hfit
    rw [lsLoopBody_eq, if_pos hc, hlsEntry, hstored, if_pos hf]
  · rw [GenerateES_eq, GenerateES_eq, hes]
  · rw [GenerateLS_eq, GenerateLS_eq]
    have hfits : hostFits LSConfigs project clusterId =
        hostFits (withEmptyTemplate LSConfigs configFile.Id) project clusterId := by
      funext h
      simp only [hostFits, hls]
    have hentries : hostEntries LSConfigs project clusterId =
        hostEntries (withEmptyTemplate LSConfigs configFile.Id) project clusterId := by
      funext h
      simp only [hostEntries, hls]
    rw [hfits, hentries]

/-- Witness for `missing_template_tolerated`: the checkbox `nodes.conf`, which
the scenario registry does not have. -/
theorem missing_template_tolerated_witness :
    esLoopBody scenarioRegistry scenarioProject "c1".toList "acme".toList ([], [])
        ⟨[], "nodes.conf".toList, true⟩ =
      some ([("acme-c1/nodes.conf".toList, [])],
       ("- pipeline.id: nodes-acme-c1\n" ++
        "  path.config: \"/etc/logstash/conf.d/acme-c1/nodes.conf\"\n\n").toList) ∧
    lsLoopBody scenarioRegistry scenarioProject "c1".toList ⟨"10.0.0.5".toList, [], []⟩ ([], [])
        ⟨[], "nodes.conf".toList, true⟩ =
      some ([("10.0.0.5/dbeast-mon/nodes.conf".toList, [])],
       ("- pipeline.id: nodes\n" ++
        "  path.config: \"/etc/logstash/conf.d/dbeast-mon/nodes.conf\"\n\n").toList) :=
  have h := missing_template_tolerated scenarioRegistry scenarioProject "c1".toList "acme".toList
    ⟨"10.0.0.5".toList, [], []⟩ [] [] ⟨[], "nodes.conf".toList, true⟩ rfl (by decide)
  ⟨(h.1 (by decide)).trans (by decide), (h.2.1 (by decide)).trans (by decide)⟩

/-! ## Substitution on texts without tokens -/

/-- C14: when the result of the environment substitution has none of the four
tokens of the environment, substituting again with the same credentials gives
the same text. -/
theorem idempotent_on_clean_text (t : GoString) (c : Credentials) (env : GoString)
    (hH : ¬ ("<".toList ++ env ++ "_HOST>".toList) <:+: UpdateConnectionSettings t c env)
    (hU : ¬ ("<".toList ++ env ++ "_USER>".toList) <:+: UpdateConnectionSettings t c env)
    (hP : ¬ ("<".toList ++ env ++ "_PASSWORD>".toList) <:+: UpdateConnectionSettings t c env)
    (hS : ¬ ("<".toList ++ env ++ "_SSL_ENABLED>".toList) <:+:
      UpdateConnectionSettings t c env) :
    UpdateConnectionSettings (UpdateConnectionSettings t c env) c env =
      UpdateConnectionSettings t c env :=
  UpdateConnectionSettings_of_absent _ c env hH hU hP hS

/-- Witness for `idempotent_on_clean_text`: a template with all four tokens. -/
theorem idempotent_on_clean_text_witness :
    UpdateConnectionSettings
        "<PROD_HOST> <PROD_USER> <PROD_PASSWORD> <PROD_SSL_ENABLED>".toList
        ⟨"https://es.acme.com".toList, true, "elastic".toList, "s3cret!".toList, []⟩
        "PROD".toList =
      "https://es.acme.com elastic s3cret! true".toList ∧
    UpdateConnectionSettings
        (UpdateConnectionSettings
          "<PROD_HOST> <PROD_USER> <PROD_PASSWORD> <PROD_SSL_ENABLED>".toList
          ⟨"https://es.acme.com".toList, true, "elastic".toList, "s3cret!".toList, []⟩
          "PROD".toList)
        ⟨"https://es.acme.com".toList, true, "elastic".toList, "s3cret!".toList, []⟩
        "PROD".toList =
      UpdateConnectionSettings
        "<PROD_HOST> <PROD_USER> <PROD_PASSWORD> <PROD_SSL_ENABLED>".toList
        ⟨"https://es.acme.com".toList, true, "elastic".toList, "s3cret!".toList, []⟩
        "PROD".toList :=
  ⟨by decide,
   idempotent_on_clean_text
     "<PROD_HOST> <PROD_USER> <PROD_PASSWORD> <PROD_SSL_ENABLED>".toList
     ⟨"https://es.acme.com".toList, true, "elastic".toList, "s3cret!".toList, []⟩
     "PROD".toList (by decide) (by decide) (by decide) (by decide)⟩

/-- C15: a template with none of the four tokens of the environment is returned
as it is by the environment substitution, whatever the credentials; a template
with neither `<PATH_TO_LOGS>` nor `<LOGSTASH-API>` is returned as it is by the
host substitution. -/
theorem absent_tokens_noop (t : GoString) (c : Credentials) (env : GoString)
    (logstashHost : LogstashHost) :
    (¬ ("<".toList ++ env ++ "_HOST>".toList) <:+: t →
      ¬ ("<".toList ++ env ++ "_USER>".toList) <:+: t →
      ¬ ("<".toList ++ env ++ "_PASSWORD>".toList) <:+: t →
      ¬ ("<".toList ++ env ++ "_SSL_ENABLED>".toList) <:+: t →
      UpdateConnectionSettings t c env = t) ∧
    (¬ "<PATH_TO_LOGS>".toList <:+: t → ¬ "<LOGSTASH-API>".toList <:+: t →
      UpdateLogstashConnectionSettings t logstashHost = t) :=
  ⟨UpdateConnectionSettings_of_absent t c env,
   UpdateLogstashConnectionSettings_of_absent t logstashHost⟩

/-- Witness for `absent_tokens_noop`: a template with a `MON` token and an
unknown token, under the `PROD` and the host substitutions. -/
theorem absent_tokens_noop_witness :
    UpdateConnectionSettings "hosts => <MON_HOST> <UNKNOWN>".toList
        ⟨"https://es.acme.com".toList, true, "<PROD_HOST>".toList, "s3cret!".toList, []⟩
        "PROD".toList =
      "hosts => <MON_HOST> <UNKNOWN>".toList ∧
    UpdateLogstashConnectionSettings "hosts => <MON_HOST> <UNKNOWN>".toList
        ⟨"10.0.0.5".toList, "<PATH_TO_LOGS>".toList, "/var/log".toList⟩ =
      "hosts => <MON_HOST> <UNKNOWN>".toList :=
  have h := absent_tokens_noop "hosts => <MON_HOST> <UNKNOWN>".toList
    ⟨"https://es.acme.com".toList, true, "<PROD_HOST>".toList, "s3cret!".toList, []⟩
    "PROD".toList ⟨"10.0.0.5".toList, "<PATH_TO_LOGS>".toList, "/var/log".toList⟩
  ⟨h.1 (by decide) (by decide) (by decide) (by decide), h.2 (by decide) (by decide)⟩

/-! ## Entry paths and manifests across hosts -/

/-- C18: when the identifiers of the checked checkboxes are pairwise distinct,
the paths of the entries of every archive the single-cluster generator returns
are pairwise distinct; a rendered file is never written at `pipelines.yml`,
whatever the identifier, the cluster name and the cluster id; and the generator
returns an archive exactly when the path of every rendered file has at most
65535 bytes. -/
theorem single_cluster_paths_distinct (LSConfigs : TemplateRegistry) (project : Cluster)
    (clusterName clusterId : GoString)
    (hids : ((checked project.LogstashConfigurations.EsMonitoringConfigurationFiles).map
      (fun configFile => configFile.Id)).Nodup) :
    (∀ out, GenerateESLogstashConfigurationFiles LSConfigs project clusterId clusterName [] =
        some out → (out.map Prod.fst).Nodup) ∧
    (∀ name cid id : GoString,
      name ++ "-".toList ++ cid ++ "/".toList ++ id ≠ "pipelines.yml".toList) ∧
    ((∃ out, GenerateESLogstashConfigurationFiles LSConfigs project clusterId clusterName [] =
        some out) ↔
      ∀ configFile ∈ project.LogstashConfigurations.EsMonitoringConfigurationFiles,
        configFile.IsChecked = true →
        byteLen (clusterName ++ "-".toList ++ clusterId ++ "/".toList ++ configFile.Id) ≤
          65535) := by
  refine ⟨fun out hout => ?_, es_path_ne_manifest, GenerateES_returns_iff _ _ _ _ _⟩
  rw [GenerateES_eq] at hout
  split at hout
  · have hout' := (Option.some.inj hout).symm
    subst hout'
    have hpaths :
        ([] ++ (checked project.LogstashConfigurations.EsMonitoringConfigurationFiles).map
            (fun configFile =>
              storedEntry (esEntry LSConfigs project clusterId clusterName configFile)) ++
          [("pipelines.yml".toList,
            "### Configuration files for the cluster: ".toList ++ clusterName ++
              ", clusterId: ".toList ++ clusterId ++ "\n".toList ++
              ((checked project.LogstashConfigurations.EsMonitoringConfigurationFiles).map
                (esBlock clusterId clusterName)).flatten)]).map Prod.fst =
        ((checked project.LogstashConfigurations.EsMonitoringConfigurationFiles).map
            (fun configFile => configFile.Id)).map
            (fun id => clusterName ++ "-".toList ++ clusterId ++ "/".toList ++ id) ++
          ["pipelines.yml".toList] := by
      simp [esEntry, storedEntry, Function.comp_def]
    rw [hpaths, List.nodup_append]
    refine ⟨hids.map (List.append_right_injective _), List.nodup_singleton _, ?_⟩
    intro path hmem hmem'
    rw [List.mem_singleton] at hmem'
    obtain ⟨id, _, hid⟩ := List.mem_map.1 hmem
    exact es_path_ne_manifest clusterName clusterId id (hid.trans hmem')
  · exact absurd hout (by simp)

/-- Witness for `single_cluster_paths_distinct`: two checked checkboxes with
different identifiers, and an unchecked one between them; the generator returns
an archive of three entries, and their paths are pairwise distinct. -/
theorem single_cluster_paths_distinct_witness :
    ((checked twoCheckedProject.LogstashConfigurations.EsMonitoringConfigurationFiles).map
        (fun configFile => configFile.Id)) = ["health.conf".toList, "nodes.conf".toList] ∧
    ∃ out, GenerateESLogstashConfigurationFiles scenarioRegistry twoCheckedProject "c1".toList
        "acme".toList [] = some out ∧
      out.map Prod.fst =
        ["acme-c1/health.conf".toList, "acme-c1/nodes.conf".toList, "pipelines.yml".toList] ∧
      (out.map Prod.fst).Nodup := by
  refine ⟨by decide, ?_⟩
  have hnames : (GenerateESLogstashConfigurationFiles scenarioRegistry twoCheckedProject
      "c1".toList "acme".toList []).map (List.map Prod.fst) =
      some ["acme-c1/health.conf".toList, "acme-c1/nodes.conf".toList,
        "pipelines.yml".toList] := by decide
  cases hgen : GenerateESLogstashConfigurationFiles scenarioRegistry twoCheckedProject
      "c1".toList "acme".toList [] with
  | none =>
    rw [hgen] at hnames
    exact absurd hnames (by simp)
  | some out =>
    rw [hgen] at hnames
    exact ⟨out, rfl, Option.some.inj hnames,
      (single_cluster_paths_distinct scenarioRegistry twoCheckedProject "acme".toList
        "c1".toList (by decide)).1 out hgen⟩

/-- The manifest blocks of a checkbox list are determined by the identifiers and
the checked flags. -/
theorem lsBlocks_of_keys :
    ∀ configFiles : List ConfigurationCheckbox,
      (checked configFiles).map lsBlock =
        ((configFiles.map (fun configFile => (configFile.Id, configFile.IsChecked))).filter
          (fun key => key.2)).map (fun key => lsBlock ⟨[], key.1, key.2⟩)
  | [] => rfl
  | configFile :: rest => by
    have ih := lsBlocks_of_keys rest
    unfold checked at ih ⊢
    by_cases hc : configFile.IsChecked = true
    · simp only [List.map_cons, List.filter_cons, hc, if_true, ih]
      rfl
    · have hf : configFile.IsChecked = false := by simpa using hc
      simp only [List.map_cons, List.filter_cons, hf, Bool.false_eq_true, if_false, ih]

/-- C19: the content of the `pipelines.yml` entry written for a host is
determined by the identifiers and checked flags of the per-host checkbox list:
two runs that agree on these write the same manifest content, whatever the
hosts, the credentials, the other parts of the request, the cluster ids and
the registries; it is the header line followed by the blocks of the checked
checkboxes; and the entries of a host are returned exactly when the paths of
its rendered files and of its manifest have at most 65535 bytes. -/
theorem per_host_manifest_host_independent (LSConfigs LSConfigs' : TemplateRegistry)
    (project project' : Cluster) (clusterId clusterId' : GoString)
    (logstashHost logstashHost' : LogstashHost) (zipWriter zipWriter' : ZipWriter)
    (hkeys :
      project.LogstashConfigurations.LogstashMonitoringConfigurationFiles.Configurations.map
          (fun configFile => (configFile.Id, configFile.IsChecked)) =
        project'.LogstashConfigurations.LogstashMonitoringConfigurationFiles.Configurations.map
          (fun configFile => (configFile.Id, configFile.IsChecked))) :
    (∀ out out', lsHostBody LSConfigs project clusterId zipWriter logstashHost = some out →
      lsHostBody LSConfigs' project' clusterId' zipWriter' logstashHost' = some out' →
      out.getLast?.map Prod.snd = out'.getLast?.map Prod.snd) ∧
    (∀ out, lsHostBody LSConfigs project clusterId zipWriter logstashHost = some out →
      out.getLast?.map Prod.snd =
        some ("### Configuration files for the Logstash monitoring\n".toList ++
          ((checked
            project.LogstashConfigurations.LogstashMonitoringConfigurationFiles.Configurations).map
            (fun configFile =>
              "- pipeline.id: ".toList ++ ReplaceAll configFile.Id ".conf".toList [] ++
                "\n".toList ++
              ("  path.config: \"/etc/logstash/conf.d/dbeast-mon/".toList ++ configFile.Id ++
                "\"\n\n".toList))).flatten)) ∧
    ((∃ out, lsHostBody LSConfigs project clusterId zipWriter logstashHost = some out) ↔
      (byteLen (filepathJoin [logstashHost.ServerAddress, "pipelines.yml".toList]) ≤ 65535 ∧
        ∀ configFile ∈
            project.LogstashConfigurations.LogstashMonitoringConfigurationFiles.Configurations,
          configFile.IsChecked = true →
          byteLen
              (filepathJoin [logstashHost.ServerAddress, "dbeast-mon".toList, configFile.Id]) ≤
            65535)) := by
  have hform : ∀ (R : TemplateRegistry) (p : Cluster) (cid : GoString) (zw : ZipWriter)
      (h : LogstashHost) (out : ZipWriter), lsHostBody R p cid zw h = some out →
      out.getLast?.map Prod.snd =
        some ("### Configuration files for the Logstash monitoring\n".toList ++
          ((checked
            p.LogstashConfigurations.LogstashMonitoringConfigurationFiles.Configurations).map
            lsBlock).flatten) := by
    intro R p cid zw h out hout
    rw [lsHostBody_eq] at hout
    split at hout
    · have hout' := (Option.some.inj hout).symm
      subst hout'
      unfold hostEntries
      rw [storedEntry_manifest, ← List.append_assoc, List.getLast?_concat]
      rfl
    · exact absurd hout (by simp)
  refine ⟨fun out out' hout hout' => ?_, fun out hout => ?_,
    lsHostBody_returns_iff _ _ _ _ _⟩
  · rw [hform _ _ _ _ _ _ hout, hform _ _ _ _ _ _ hout', lsBlocks_of_keys, lsBlocks_of_keys,
      hkeys]
  · rw [hform _ _ _ _ _ _ hout]
    rfl

/-- Witness for `per_host_manifest_host_independent`: two requests with the same
identifiers and flags, different labels, hosts, cluster ids and registries. -/
theorem per_host_manifest_host_independent_witness :
    ((lsHostBody scenarioRegistry mixedProject "c1".toList []
        ⟨"10.0.0.5".toList, [], []⟩).bind List.getLast?).map Prod.snd =
      ((lsHostBody (fun _ => none)
        ⟨⟨⟨hostOnly [], hostOnly []⟩, ⟨hostOnly []⟩⟩,
         ⟨[], ⟨[⟨"logs".toList, "logs.conf".toList, false⟩,
                ⟨"api".toList, "api.conf".toList, true⟩], []⟩⟩⟩
        "c2".toList [("x".toList, [])] ⟨"10.0.0.6".toList, "a".toList, "b".toList⟩).bind
        List.getLast?).map Prod.snd ∧
    ([("10.0.0.5/dbeast-mon/api.conf".toList, []),
      ("10.0.0.5/pipelines.yml".toList,
        ("### Configuration files for the Logstash monitoring\n" ++
         "- pipeline.id: api\n" ++
         "  path.config: \"/etc/logstash/conf.d/dbeast-mon/api.conf\"\n\n").toList)] :
      ZipWriter).getLast?.map Prod.snd =
      ([("x".toList, []), ("10.0.0.6/dbeast-mon/api.conf".toList, []),
        ("10.0.0.6/pipelines.yml".toList,
          ("### Configuration files for the Logstash monitoring\n" ++
           "- pipeline.id: api\n" ++
           "  path.config: \"/etc/logstash/conf.d/dbeast-mon/api.conf\"\n\n").toList)] :
        ZipWriter).getLast?.map Prod.snd :=
  ⟨by decide,
   (per_host_manifest_host_independent scenarioRegistry (fun _ => none) mixedProject
    ⟨⟨⟨hostOnly [], hostOnly []⟩, ⟨hostOnly []⟩⟩,
     ⟨[], ⟨[⟨"logs".toList, "logs.conf".toList, false⟩,
            ⟨"api".toList, "api.conf".toList, true⟩], []⟩⟩⟩
    "c1".toList "c2".toList ⟨"10.0.0.5".toList, [], []⟩
    ⟨"10.0.0.6".toList, "a".toList, "b".toList⟩ [] [("x".toList, [])] (by decide)).1 _ _
    (by decide) (by decide)⟩

/-! ## The HTTP boundary -/

/-- C16: in both modes, when the body decodes and the identity resolver returns
an error, the status written to a fresh response is `500`, the only write to the
body is the JSON error object, so no archive bytes, and the resolver call is the
only call: neither generator is invoked; when the resolver succeeds it is called
once, before the generator of the mode. -/
theorem identity_failure_atomic
    (GetClusterInfo : Credentials → Except GoString (GoString × GoString))
    (LSConfigs : TemplateRegistry) (w : ResponseWriter) (req : Request) (isLogstash : Bool)
    (resultZipFileName : GoString) (project : Cluster) (hreq : req.Body = .ok project) :
    (∀ err : GoString,
      GetClusterInfo project.ClusterConnectionSettings.Prod.Elasticsearch = .error err →
      w.status = none →
      (GenerateLogstashConfigurationFiles GetClusterInfo LSConfigs w req isLogstash
          resultZipFileName).1.status = some 500 ∧
      (GenerateLogstashConfigurationFiles GetClusterInfo LSConfigs w req isLogstash
          resultZipFileName).1.body = w.body ++ [.json [("error".toList, err)]] ∧
      (GenerateLogstashConfigurationFiles GetClusterInfo LSConfigs w req isLogstash
          resultZipFileName).2 =
        [Call.GetClusterInfo project.ClusterConnectionSettings.Prod.Elasticsearch]) ∧
    (∀ clusterName clusterId : GoString,
      GetClusterInfo project.ClusterConnectionSettings.Prod.Elasticsearch =
        .ok (clusterName, clusterId) →
      (GenerateLogstashConfigurationFiles GetClusterInfo LSConfigs w req isLogstash
          resultZipFileName).2 =
        [Call.GetClusterInfo project.ClusterConnectionSettings.Prod.Elasticsearch,
         if isLogstash then Call.GenerateLSLogstashConfigurationFiles clusterId
         else Call.GenerateESLogstashConfigurationFiles clusterId clusterName]) := by
  refine ⟨fun err herr hw => ?_, fun clusterName clusterId hok => ?_⟩
  · have hval : GenerateLogstashConfigurationFiles GetClusterInfo LSConfigs w req isLogstash
        resultZipFileName =
        ((((w.HeaderAdd "Content-Disposition".toList
              ("attachment; filename=\"".toList ++ resultZipFileName ++ "\"".toList)).HeaderAdd
            "Content-Type".toList "application/zip".toList).WriteHeader 500).Write
          (.json [("error".toList, err)]),
         [Call.GetClusterInfo project.ClusterConnectionSettings.Prod.Elasticsearch]) := by
      simp only [GenerateLogstashConfigurationFiles, hreq, herr]
    rw [hval]
    refine ⟨?_, ?_, rfl⟩ <;>
      simp [ResponseWriter.Write, ResponseWriter.WriteHeader, ResponseWriter.HeaderAdd, hw]
  · simp only [GenerateLogstashConfigurationFiles, hreq, hok]
    cases isLogstash
    · simp only [Bool.false_eq_true, if_false]
      split <;> rfl
    · simp only [if_true]
      split <;> rfl

/-- Witness for `identity_failure_atomic`: the scenario request with a resolver
that fails, in per-host mode. -/
theorem identity_failure_atomic_witness :
    GenerateLogstashConfigurationFiles failingResolver scenarioRegistry freshWriter
        ⟨.ok scenarioProject⟩ true "LogstashConfigurationFiles.zip".toList =
      (⟨[("Content-Disposition".toList,
            "attachment; filename=\"LogstashConfigurationFiles.zip\"".toList),
          ("Content-Type".toList, "application/zip".toList)],
         some 500,
         [.json [("error".toList, "connection refused".toList)]]⟩,
       [Call.GetClusterInfo (hostOnly "https://es.acme.com".toList)]) ∧
    (GenerateLogstashConfigurationFiles failingResolver scenarioRegistry freshWriter
        ⟨.ok scenarioProject⟩ true "LogstashConfigurationFiles.zip".toList).1.status =
      some 500 :=
  ⟨by decide,
   ((identity_failure_atomic failingResolver scenarioRegistry freshWriter ⟨.ok scenarioProject⟩
      true "LogstashConfigurationFiles.zip".toList scenarioProject rfl).1
      "connection refused".toList rfl rfl).1⟩

/-- C17: at the path `/download_es_monitoring_configuration_files`
`registerRoutes` registers `AddClusterHandler`; the single-cluster download
handler, which runs `GenerateLogstashConfigurationFiles` with
`isLogstash = false` and `ESConfigurationFiles.zip`, is registered under no
path; `/download_logstash_monitoring_configuration_files` is registered with the
per-host download handler, which runs the generation with `isLogstash = true`
and `LogstashConfigurationFiles.zip`. -/
theorem route_wiring
    (GetClusterInfo : Credentials → Except GoString (GoString × GoString))
    (LSConfigs : TemplateRegistry) (absent : Handler → HandlerFunc) (w : ResponseWriter)
    (req : Request) :
    routeHandler (registerRoutes [])
        "/download_logstash_monitoring_configuration_files".toList =
      some Handler.DownloadLogstashMonitoringConfigurationFilesHandler ∧
    Handler.func GetClusterInfo LSConfigs absent
        Handler.DownloadLogstashMonitoringConfigurationFilesHandler w req =
      GenerateLogstashConfigurationFiles GetClusterInfo LSConfigs w req true
        "LogstashConfigurationFiles.zip".toList ∧
    routeHandler (registerRoutes []) "/download_es_monitoring_configuration_files".toList =
      some Handler.AddClusterHandler ∧
    Handler.func GetClusterInfo LSConfigs absent Handler.AddClusterHandler w req =
      absent Handler.AddClusterHandler w req ∧
    (∀ path : GoString, routeHandler (registerRoutes []) path ≠
      some Handler.DownloadElasticsearchMonitoringConfigurationFilesHandler) ∧
    Handler.func GetClusterInfo LSConfigs absent
        Handler.DownloadElasticsearchMonitoringConfigurationFilesHandler w req =
      GenerateLogstashConfigurationFiles GetClusterInfo LSConfigs w req false
        "ESConfigurationFiles.zip".toList := by
  refine ⟨by decide, rfl, by decide, rfl, ?_, rfl⟩
  intro path hpath
  unfold routeHandler at hpath
  obtain ⟨route, hfind, hsnd⟩ := Option.map_eq_some'.1 hpath
  have hmem := List.mem_of_find?_eq_some hfind
  have hall : ∀ r ∈ registerRoutes [],
      r.2 ≠ Handler.DownloadElasticsearchMonitoringConfigurationFilesHandler := by decide
  exact hall route hmem hsnd

/-! ## Order of the replacements -/

/-- The scan for `old` copies a text `u` when `old` matches at no position of
`u` in `u ++ r`. -/
theorem replaceAux_pass (old new r : GoString) :
    ∀ u : GoString, (∀ t, t ≠ [] → t <:+ u → ¬ old <+: t ++ r) →
      replaceAux old new 0 (u ++ r) = u ++ replaceAux old new 0 r
  | [], _ => rfl
  | c :: u, h => by
    have hc : ¬ old <+: c :: (u ++ r) := h (c :: u) (by simp) List.suffix_rfl
    have ih := replaceAux_pass old new r u
      (fun t ht hs => h t ht (hs.trans (List.suffix_cons c u)))
    rw [List.cons_append, replaceAux_mismatch old new c (u ++ r) hc, ih, List.cons_append]

/-- The scan for `old` copies a text that has nowhere the first character of
`old`. -/
theorem replaceAux_pass_head (old new a x : GoString) (hold : old ≠ [])
    (hd : ∀ c ∈ a, old.head? ≠ some c) :
    replaceAux old new 0 (a ++ x) = a ++ replaceAux old new 0 x := by
  apply replaceAux_pass
  intro t ht hs hp
  obtain ⟨o, os, rfl⟩ := List.exists_cons_of_ne_nil hold
  obtain ⟨c, cs, rfl⟩ := List.exists_cons_of_ne_nil ht
  rw [List.cons_append, List.cons_prefix_cons] at hp
  have hca : c ∈ a := hs.subset (List.mem_cons_self c cs)
  exact hd c hca (by rw [hp.1]; rfl)

/-- Two replacements commute when neither pattern matches at a position inside
an instance of the other and each new text is non-empty, has neither the first
nor the last character of the other pattern, and is not a part of the other
pattern. -/
theorem replaceAux_comm (A a B b : GoString) (hA : A ≠ []) (hB : B ≠ []) (ha : a ≠ [])
    (hb : b ≠ [])
    (haB : ∀ c ∈ a, B.head? ≠ some c) (hbA : ∀ c ∈ b, A.head? ≠ some c)
    (haB' : ∀ ch, B.getLast? = some ch → ch ∉ a) (hbA' : ∀ ch, A.getLast? = some ch → ch ∉ b)
    (hsa : ¬ a <:+: B) (hsb : ¬ b <:+: A)
    (hAB : ∀ t r, t ≠ [] → t <:+ A → ¬ B <+: t ++ r)
    (hBA : ∀ t r, t ≠ [] → t <:+ B → ¬ A <+: t ++ r) :
    ∀ (n : Nat) (s : GoString), s.length ≤ n →
      replaceAux B b 0 (replaceAux A a 0 s) = replaceAux A a 0 (replaceAux B b 0 s)
  | _, [], _ => by simp [replaceAux]
  | 0, _ :: _, hn => by simp at hn
  | n + 1, c :: cs, hn => by
    by_cases hpA : A <+: c :: cs
    · obtain ⟨r, hr⟩ := hpA
      have hlen : r.length ≤ n := by
        have h1 : (A ++ r).length = (c :: cs).length := by rw [hr]
        have h2 : 0 < A.length := List.length_pos.2 hA
        simp only [List.length_append, List.length_cons] at h1 hn
        omega
      rw [← hr, replaceAux_match A a r hA, replaceAux_pass_head B b a _ hB haB,
        replaceAux_pass B b r A (fun t ht hs => hAB t r ht hs), replaceAux_match A a _ hA,
        replaceAux_comm A a B b hA hB ha hb haB hbA haB' hbA' hsa hsb hAB hBA n r hlen]
    · by_cases hpB : B <+: c :: cs
      · obtain ⟨r, hr⟩ := hpB
        have hlen : r.length ≤ n := by
          have h1 : (B ++ r).length = (c :: cs).length := by rw [hr]
          have h2 : 0 < B.length := List.length_pos.2 hB
          simp only [List.length_append, List.length_cons] at h1 hn
          omega
        rw [← hr, replaceAux_match B b r hB, replaceAux_pass_head A a b _ hA hbA,
          replaceAux_pass A a r B (fun t ht hs => hBA t r ht hs), replaceAux_match B b _ hB,
          replaceAux_comm A a B b hA hB ha hb haB hbA haB' hbA' hsa hsb hAB hBA n r hlen]
      · have hlen : cs.length ≤ n := by
          simp only [List.length_cons] at hn
          omega
        have hB' : ¬ B <+: c :: replaceAux A a 0 cs := by
          intro h
          rw [← replaceAux_mismatch A a c cs hpA] at h
          exact hpB (prefix_of_prefix_replaceAux A a ha _ B haB' hsa h)
        have hA' : ¬ A <+: c :: replaceAux B b 0 cs := by
          intro h
          rw [← replaceAux_mismatch B b c cs hpB] at h
          exact hpA (prefix_of_prefix_replaceAux B b hb _ A hbA' hsb h)
        rw [replaceAux_mismatch A a c cs hpA, replaceAux_mismatch B b c cs hpB,
          replaceAux_mismatch B b c _ hB', replaceAux_mismatch A a c _ hA',
          replaceAux_comm A a B b hA hB ha hb haB hbA haB' hbA' hsa hsb hAB hBA n cs hlen]

/-- A token is not empty. -/
theorem token_ne_nil (env : GoString) (p : Placeholder) : p.token env ≠ [] := by
  simp [Placeholder.token]

/-- The ending of a token has no `<`. -/
theorem lt_not_mem_ending (p : Placeholder) : '<' ∉ p.ending := by
  cases p <;> decide

/-- The ending of a token is not the start of the ending of another token
followed by any text. -/
theorem ending_not_prefix (p q : Placeholder) (hpq : p ≠ q) (r : GoString) :
    ¬ q.ending <+: p.ending ++ r := by
  cases p <;> cases q <;> first
    | exact absurd rfl hpq
    | simp [Placeholder.ending]

/-- With no `<` in the environment tag, the token of one placeholder matches at
no position inside the token of another. -/
theorem token_no_overlap (env : GoString) (henv : '<' ∉ env) (p q : Placeholder) (hpq : p ≠ q)
    (t r : GoString) (ht : t ≠ []) (hs : t <:+ p.token env) : ¬ q.token env <+: t ++ r := by
  intro hp
  obtain ⟨c, cs, rfl⟩ := List.exists_cons_of_ne_nil ht
  have hq : q.token env = '<' :: (env ++ q.ending) := rfl
  have hpt : p.token env = '<' :: (env ++ p.ending) := rfl
  rw [hq, List.cons_append, List.cons_prefix_cons] at hp
  obtain ⟨hc, hrest⟩ := hp
  subst hc
  rw [hpt, List.suffix_cons_iff] at hs
  rcases hs with hs | hs
  · obtain ⟨rfl⟩ : cs = env ++ p.ending := by
      injection hs
    rw [List.append_assoc, List.prefix_append_right_inj] at hrest
    exact ending_not_prefix p q hpq r hrest
  · have hmem : '<' ∈ env ++ p.ending := hs.subset (List.mem_cons_self _ cs)
    rcases List.mem_append.1 hmem with h | h
    · exact henv h
    · exact lt_not_mem_ending p h

/-- A token starts with `<`. -/
theorem token_head (env : GoString) (p : Placeholder) : (p.token env).head? = some '<' := rfl

/-- A token ends with `>`. -/
theorem token_getLast (env : GoString) (p : Placeholder) :
    (p.token env).getLast? = some '>' := by
  have h : p.token env = ("<".toList ++ env ++ p.ending.dropLast) ++ ['>'] := by
    cases p <;> simp [Placeholder.token, Placeholder.ending]
  rw [h, List.getLast?_concat]

/-- Two of the four replacements commute, for an environment tag without `<`
and substituted texts that have neither `<` nor `>` and are not a part of the
token of another placeholder. -/
theorem replaceOne_comm (c : Credentials) (env : GoString) (henv : '<' ∉ env)
    (hbr : ∀ v ∈ [c.Host, c.Username, c.Password], '<' ∉ v ∧ '>' ∉ v)
    (hsub : ∀ p q : Placeholder, p ≠ q → ¬ p.value c <:+: q.token env)
    (p q : Placeholder) (z : GoString) :
    replaceOne c env (replaceOne c env z p) q = replaceOne c env (replaceOne c env z q) p := by
  by_cases hpq : p = q
  · rw [hpq]
  have hbr' : ∀ k : Placeholder, '<' ∉ k.value c ∧ '>' ∉ k.value c := by
    intro k
    cases k
    · exact hbr c.Host (by simp)
    · exact hbr c.Username (by simp)
    · exact hbr c.Password (by simp)
    · exact formatBool_no_bracket _
  have hne : ∀ k j : Placeholder, k ≠ j → k.value c ≠ [] := by
    intro k j hkj hnil
    exact hsub k j hkj (hnil ▸ List.nil_infix)
  have hhead : ∀ k j : Placeholder, ∀ ch ∈ k.value c, (j.token env).head? ≠ some ch := by
    intro k j ch hch hh
    rw [token_head] at hh
    exact (hbr' k).1 (Option.some.inj hh ▸ hch)
  have hlast : ∀ k j : Placeholder, ∀ ch, (j.token env).getLast? = some ch →
      ch ∉ k.value c := by
    intro k j ch hh hch
    rw [token_getLast] at hh
    exact (hbr' k).2 (Option.some.inj hh ▸ hch)
  have hqp : q ≠ p := fun h => hpq h.symm
  simp only [replaceOne, ReplaceAll, token_ne_nil, if_false]
  exact replaceAux_comm (p.token env) (p.value c) (q.token env) (q.value c) (token_ne_nil env p)
    (token_ne_nil env q) (hne p q hpq) (hne q p hqp) (hhead p q) (hhead q p) (hlast p q)
    (hlast q p) (hsub p q hpq) (hsub q p hqp)
    (fun t r ht hs => token_no_overlap env henv p q hpq t r ht hs)
    (fun t r ht hs => token_no_overlap env henv q p hqp t r ht hs)
    z.length z le_rfl

/-- C13, as stated, fails: with a host that spells the user token, replacing
USER before HOST leaves that token, while `UpdateConnectionSettings` replaces
it by the user name. -/
theorem replacement_order_counterexample :
    replaceInOrder ⟨"<PROD_USER>".toList, true, "elastic".toList, "s3cret!".toList, []⟩
        "PROD".toList
        [Placeholder.USER, Placeholder.HOST, Placeholder.PASSWORD, Placeholder.SSL_ENABLED]
        "<PROD_HOST>".toList = "<PROD_USER>".toList ∧
    UpdateConnectionSettings "<PROD_HOST>".toList
        ⟨"<PROD_USER>".toList, true, "elastic".toList, "s3cret!".toList, []⟩ "PROD".toList =
      "elastic".toList ∧
    replaceInOrder ⟨"<PROD_USER>".toList, true, "elastic".toList, "s3cret!".toList, []⟩
        "PROD".toList
        [Placeholder.USER, Placeholder.HOST, Placeholder.PASSWORD, Placeholder.SSL_ENABLED]
        "<PROD_HOST>".toList ≠
      UpdateConnectionSettings "<PROD_HOST>".toList
        ⟨"<PROD_USER>".toList, true, "elastic".toList, "s3cret!".toList, []⟩ "PROD".toList := by
  decide

/-- C13, amended: for an environment tag without `<` and credentials whose
host, user name and password have neither `<` nor `>`, when none of the four
substituted texts (host, user name, password, and `true` or `false`) is a
substring of the token of another placeholder (the empty text is one), the four
replacements applied in any order give the text `UpdateConnectionSettings`
gives; `UpdateConnectionSettings` applies them in the order HOST, USER,
PASSWORD, SSL_ENABLED. -/
theorem replacement_order_independent (t : GoString) (c : Credentials) (env : GoString)
    (order : List Placeholder) (henv : '<' ∉ env)
    (hbr : ∀ v ∈ [c.Host, c.Username, c.Password], '<' ∉ v ∧ '>' ∉ v)
    (hsub : ∀ p q : Placeholder, p ≠ q → ¬ p.value c <:+: q.token env)
    (horder : order.Perm
      [Placeholder.HOST, Placeholder.USER, Placeholder.PASSWORD, Placeholder.SSL_ENABLED]) :
    replaceInOrder c env order t = UpdateConnectionSettings t c env ∧
    UpdateConnectionSettings t c env =
      replaceInOrder c env
        [Placeholder.HOST, Placeholder.USER, Placeholder.PASSWORD, Placeholder.SSL_ENABLED] t := by
  refine ⟨?_, rfl⟩
  have h := List.Perm.foldl_eq' horder
    (fun p _ q _ z => replaceOne_comm c env henv hbr hsub p q z) t
  exact h

/-- Witness for `replacement_order_independent`: the order SSL_ENABLED, PASSWORD,
USER, HOST on a template with all four tokens, with a password made of
characters of the tokens. -/
theorem replacement_order_independent_witness :
    replaceInOrder ⟨"https://es.acme.com".toList, true, "elastic".toList, "Passw0rd".toList, []⟩
        "PROD".toList
        [Placeholder.SSL_ENABLED, Placeholder.PASSWORD, Placeholder.USER, Placeholder.HOST]
        "<PROD_HOST> <PROD_USER> <PROD_PASSWORD> <PROD_SSL_ENABLED>".toList =
      UpdateConnectionSettings
        "<PROD_HOST> <PROD_USER> <PROD_PASSWORD> <PROD_SSL_ENABLED>".toList
        ⟨"https://es.acme.com".toList, true, "elastic".toList, "Passw0rd".toList, []⟩
        "PROD".toList :=
  (replacement_order_independent
    "<PROD_HOST> <PROD_USER> <PROD_PASSWORD> <PROD_SSL_ENABLED>".toList
    ⟨"https://es.acme.com".toList, true, "elastic".toList, "Passw0rd".toList, []⟩ "PROD".toList
    [Placeholder.SSL_ENABLED, Placeholder.PASSWORD, Placeholder.USER, Placeholder.HOST]
    (by decide) (by decide)
    (fun p q hpq => by cases p <;> cases q <;> first | exact absurd rfl hpq | decide)
    (by decide)).1

end DBeast
